import Mathlib

/-!
Shallow embedding of the visual-consistency core of the m-video-p repository
(src/demo/consistency/{schemas,manager,assembler}.py) and proofs about it.

Modelling conventions:
* Python `str` is modelled as `List Char` (`PyStr`); `len` is `List.length`.
* Python `Optional[T]` is `Option T`; Python truthiness of an optional string
  is "present and non-empty".
* The regular-expression substitutions of `_compress_for_wan` are modelled by
  direct scanners implementing the leftmost, non-overlapping, greedy semantics
  of `re.sub` for the specific patterns the source uses.  `\s` and `str.strip`
  are modelled over the ASCII whitespace characters, `\w` over ASCII
  alphanumerics plus underscore, and `re.IGNORECASE` by `Char.toLower`
  comparison (all pattern literals in the source are ASCII).
* The float comparisons `cut_point > target_length * 0.7` and
  `last_space > target_length * 0.8` are modelled exactly as the rational
  comparisons `10 * cut_point > 7 * target` and `10 * last_space > 8 * target`.
* Python exceptions are modelled with `Except`; a raised `ValueError` carries
  its message string.
* `datetime` values are modelled as integers (timestamps); pydantic dumps them
  to ISO strings and parses them back, modelled as the identity on the integer.
-/

namespace MVP

/-- Python `str`, modelled as a list of characters. -/
abbrev PyStr := List Char

/-- ASCII whitespace, the characters `str.split`/`str.strip`/`\s` act on
(modelling note: Python also treats some further Unicode characters as
whitespace; the source only ever produces ASCII separators). -/
def isPySpace (c : Char) : Bool :=
  c = ' ' || c = '\t' || c = '\n' || c = '\x0d' || c = '\x0b' || c = '\x0c'

/-- Regex word character `\w` (ASCII): letter, digit or underscore. -/
def isWordChar (c : Char) : Bool :=
  (('a' ≤ c && c ≤ 'z') || ('A' ≤ c && c ≤ 'Z') || ('0' ≤ c && c ≤ '9') || c = '_')

/-- Python `str.lstrip()` (whitespace). -/
def pyLStrip (s : PyStr) : PyStr := s.dropWhile isPySpace

/-- Drop from the right while the predicate holds (used for `rstrip`). -/
def dropRightWhile (p : Char → Bool) (s : PyStr) : PyStr :=
  (s.reverse.dropWhile p).reverse

/-- Python `str.rstrip()` (whitespace). -/
def pyRStrip (s : PyStr) : PyStr := dropRightWhile isPySpace s

/-- Python `str.strip()` (whitespace, both ends). -/
def pyStrip (s : PyStr) : PyStr := pyRStrip (pyLStrip s)

/-- Python `str.rstrip(",")`. -/
def pyRStripComma (s : PyStr) : PyStr := dropRightWhile (fun c => c = ',') s

/-- Python `str.split()` with no argument: split on whitespace runs,
discarding empty pieces.  `acc` holds the current word reversed. -/
def pySplitAux : PyStr → PyStr → List PyStr
  | [], acc => if acc.isEmpty then [] else [acc.reverse]
  | c :: r, acc =>
    if isPySpace c then
      if acc.isEmpty then pySplitAux r [] else acc.reverse :: pySplitAux r []
    else pySplitAux r (c :: acc)

/-- Python `str.split()` with no argument. -/
def pySplit (s : PyStr) : List PyStr := pySplitAux s []

/-- Python `sep.join(parts)`. -/
def joinWith (sep : PyStr) : List PyStr → PyStr
  | [] => []
  | [x] => x
  | x :: y :: rest => x ++ sep ++ joinWith sep (y :: rest)

/-- Python `sep.join(filter(None, parts))`: empty strings are dropped. -/
def joinNonEmpty (sep : PyStr) (parts : List PyStr) : PyStr :=
  joinWith sep (parts.filter (fun p => !p.isEmpty))

/-- The `" ".join(prompt.split())`: whitespace normalisation. -/
def normalizeWS (s : PyStr) : PyStr := joinWith [' '] (pySplit s)

/-- Helper for Python `str.rfind`: returns the last index at which the
character occurs, or `-1`.  `i` is the index of the head of `s`, `acc` the
best index found so far. -/
def rfindAux (tgt : Char) : PyStr → Nat → Int → Int
  | [], _, acc => acc
  | c :: r, i, acc => rfindAux tgt r (i + 1) (if c = tgt then (i : Int) else acc)

/-- Python `s.rfind(c)` for a single-character needle: last index or `-1`. -/
def pyRFind (tgt : Char) (s : PyStr) : Int := rfindAux tgt s 0 (-1)

/-- Length of the leading whitespace run (greedy `\s*`). -/
def wsRun (s : PyStr) : Nat := (s.takeWhile isPySpace).length

/-- Case-insensitive literal match: if `s` starts with `lit` (comparing
`Char.toLower`), return the rest of `s`. -/
def matchCI : PyStr → PyStr → Option PyStr
  | [], s => some s
  | _ :: _, [] => none
  | a :: la, c :: s => if a.toLower = c.toLower then matchCI la s else none

/-- Tail of a word pattern: `\s+` (greedy run of whitespace, at least one
character) or a closing word boundary `\b`. -/
inductive PatTail
  | wsPlus
  | boundary
deriving DecidableEq

/-- A pattern of the shape `\b<literal><tail>` with `re.IGNORECASE`.
Every filler-phrase and abbreviation pattern in `_compress_for_wan` has this
shape; the literal begins and ends with a word character. -/
structure WordPat where
  lit : PyStr
  tail : PatTail

/-- Does a `\b` hold between `prev` (the character before the current scan
position, if any) and a word character at the current position? -/
def boundaryBefore (prev : Option Char) : Bool :=
  match prev with
  | none => true
  | some c => !isWordChar c

/-- Length of the match of `pat` at the start of `s` (with `prev` the
preceding character), or `none`.  Implements `\b lit \s+` and `\b lit \b`. -/
def matchLen (pat : WordPat) (prev : Option Char) (s : PyStr) : Option Nat :=
  if boundaryBefore prev then
    match matchCI pat.lit s with
    | none => none
    | some rest =>
      match pat.tail with
      | .wsPlus =>
        let w := wsRun rest
        if w = 0 then none else some (pat.lit.length + w)
      | .boundary =>
        match rest with
        | [] => some pat.lit.length
        | c :: _ => if isWordChar c then none else some pat.lit.length
  else none

/-- The `re.sub` scanner for a `WordPat`: leftmost, non-overlapping; on a match
the replacement is emitted and scanning resumes after the matched text (the
character preceding the next position is the last matched source character).
`fuel` is at least the length of the remaining input. -/
def subWordPatAux (pat : WordPat) (repl : PyStr) :
    Nat → Option Char → PyStr → PyStr
  | 0, _, s => s
  | _ + 1, _, [] => []
  | fuel + 1, prev, c :: rest =>
    match matchLen pat prev (c :: rest) with
    | some n =>
      repl ++ subWordPatAux pat repl fuel ((c :: rest).take n).getLast?
        ((c :: rest).drop n)
    | none => c :: subWordPatAux pat repl fuel (some c) rest

/-- The `re.sub(pat, repl, s, flags=re.IGNORECASE)` for a `WordPat`. -/
def subWordPat (pat : WordPat) (repl : PyStr) (s : PyStr) : PyStr :=
  subWordPatAux pat repl s.length none s

/-- The `re.sub(r"\s*,\s*", ", ", s)`: at each position the pattern matches iff
the whitespace run there is followed by a comma; the match greedily takes the
whitespace on both sides of the comma. -/
def subCommaSpacingAux : Nat → PyStr → PyStr
  | 0, s => s
  | _ + 1, [] => []
  | fuel + 1, c :: rest =>
    let w1 := wsRun (c :: rest)
    match (c :: rest).drop w1 with
    | ',' :: r2 =>
      let w2 := wsRun r2
      ',' :: ' ' :: subCommaSpacingAux fuel (r2.drop w2)
    | _ => c :: subCommaSpacingAux fuel rest

/-- The `re.sub(r"\s*,\s*", ", ", s)`. -/
def subCommaSpacing (s : PyStr) : PyStr := subCommaSpacingAux s.length s

/-- The `re.sub(r",+", ",", s)`: collapse runs of commas.  The flag records
whether the previous character was part of a comma run. -/
def collapseCommasAux : Bool → PyStr → PyStr
  | _, [] => []
  | prevComma, c :: r =>
    if c = ',' then
      if prevComma then collapseCommasAux true r
      else ',' :: collapseCommasAux true r
    else c :: collapseCommasAux false r

/-- The `re.sub(r",+", ",", s)`. -/
def collapseCommas (s : PyStr) : PyStr := collapseCommasAux false s

/-- The `re.sub(r",\s*,", ",", s)`: a comma, optional whitespace, and a second
comma are replaced by a single comma (leftmost, non-overlapping). -/
def subCommaWsCommaAux : Nat → PyStr → PyStr
  | 0, s => s
  | _ + 1, [] => []
  | fuel + 1, c :: rest =>
    if c = ',' then
      let w := wsRun rest
      match rest.drop w with
      | ',' :: _ => ',' :: subCommaWsCommaAux fuel (rest.drop (w + 1))
      | _ => ',' :: subCommaWsCommaAux fuel rest
    else c :: subCommaWsCommaAux fuel rest

/-- The `re.sub(r",\s*,", ",", s)`. -/
def subCommaWsComma (s : PyStr) : PyStr := subCommaWsCommaAux s.length s

/-- The `re.sub(r"^\s*,\s*", "", s)`: the anchored pattern matches at most once
(at position 0), removing leading whitespace, one comma, and the whitespace
after it. -/
def stripLeadingCommaWs (s : PyStr) : PyStr :=
  let w1 := wsRun s
  match s.drop w1 with
  | ',' :: r2 => r2.drop (wsRun r2)
  | _ => s

/-! ### The compression pipeline (`PromptAssembler._compress_for_wan`) -/

/-- A filler pattern ending in `\s+`. -/
def fillerWs (w : String) : WordPat := ⟨w.toList, .wsPlus⟩

/-- A filler pattern ending in `\b`. -/
def fillerB (w : String) : WordPat := ⟨w.toList, .boundary⟩

/-- The `filler_phrases` list of `_compress_for_wan`, in source order.  Each
pattern starts with `\b` (the literals all begin with a word character, so
`\bvery\s+` etc. are exactly `WordPat`s). -/
def fillerPhrases : List WordPat :=
  [ fillerWs ("very"), fillerWs ("really"), fillerWs ("extremely"),
    fillerWs ("quite"), fillerWs ("somewhat"), fillerWs ("a bit"),
    fillerWs ("slightly"), fillerB ("in the style of"), fillerWs ("with a"),
    fillerWs ("that is"), fillerWs ("which is"), fillerB ("and also"),
    fillerB ("as well as") ]

/-- Strategy 2 loop: `for pattern in filler_phrases: if len(prompt) <=
target_length: break; prompt = re.sub(pattern, "", prompt, re.IGNORECASE)`. -/
def applyFillers (target : Nat) : List WordPat → PyStr → PyStr
  | [], p => p
  | pat :: pats, p =>
    if p.length ≤ target then p
    else applyFillers target pats (subWordPat pat [] p)

/-- The `abbreviations` list of `_compress_for_wan` (each pattern is
`\b<term>\b`, case-insensitive), in source order, with replacements. -/
def abbreviations : List (WordPat × PyStr) :=
  [ (fillerB ("background"), ("bg").toList),
    (fillerB ("foreground"), ("fg").toList),
    (fillerB ("character"), ("char").toList),
    (fillerB ("environment"), ("env").toList),
    (fillerB ("photorealistic"), ("photreal").toList),
    (fillerB ("high quality"), ("HQ").toList),
    (fillerB ("high resolution"), ("hi-res").toList),
    (fillerB ("cinematic lighting"), ("cinema light").toList),
    (fillerB ("professional"), ("pro").toList),
    (fillerB ("detailed"), ("detail").toList) ]

/-- Strategy 3 loop: `for pattern, replacement in abbreviations: if
len(prompt) <= target_length: break; prompt = re.sub(...)`. -/
def applyAbbreviations (target : Nat) : List (WordPat × PyStr) → PyStr → PyStr
  | [], p => p
  | (pat, repl) :: pats, p =>
    if p.length ≤ target then p
    else applyAbbreviations target pats (subWordPat pat repl p)

/-- Strategy 4 of `_compress_for_wan`: truncate at a natural boundary.
`cut_point > target_length * 0.7` and `last_space > target_length * 0.8`
are modelled as the exact rational comparisons `10 * cut > 7 * target` and
`10 * lastSpace > 8 * target`. -/
def truncateAtBoundary (p : PyStr) (target : Nat) : PyStr :=
  let truncated := p.take target
  let lastComma := pyRFind ',' truncated
  let lastPeriod := pyRFind '.' truncated
  let cutPoint := max lastComma lastPeriod
  let p' :=
    if 10 * cutPoint > 7 * (target : Int) then
      pyStrip (p.take cutPoint.toNat)
    else
      let q := p.take target
      let lastSpace := pyRFind ' ' q
      if 10 * lastSpace > 8 * (target : Int) then q.take lastSpace.toNat else q
  pyStrip (pyRStripComma (pyStrip p'))

/-- The `PromptAssembler._compress_for_wan(prompt, target_length)`: compress a
prompt to fit within Wan 2.6's character limit (assembler.py lines 294-390).
The four strategies are applied in order, returning early as soon as the
prompt is within the target. -/
def compressForWan (prompt : PyStr) (target : Nat) : PyStr :=
  if prompt.length ≤ target then prompt
  else
    -- Strategy 1: normalize whitespace
    let p1 := collapseCommas (subCommaSpacing (normalizeWS prompt))
    if p1.length ≤ target then p1
    else
      -- Strategy 2: remove filler phrases, then clean up doubles
      let p2a := applyFillers target fillerPhrases p1
      let p2 := stripLeadingCommaWs (subCommaWsComma (normalizeWS p2a))
      if p2.length ≤ target then p2
      else
        -- Strategy 3: abbreviate common terms
        let p3 := applyAbbreviations target abbreviations p2
        if p3.length ≤ target then p3
        else
          -- Strategy 4: truncate at natural boundary
          truncateAtBoundary p3 target

/-! ### Schemas (src/demo/consistency/schemas.py) -/

/-- The `ConfidenceLevel`: how confident we are about an attribute value. -/
inductive ConfidenceLevel
  | confirmed
  | inferred
  | dflt
deriving DecidableEq

/-- The `Attribute`: a single attribute with confidence tracking. -/
structure Attribute where
  value : PyStr
  confidence : ConfidenceLevel
  source_turn : Option Int
deriving DecidableEq

/-- The `SubjectType`: type of subject in the video. -/
inductive SubjectType
  | human
  | animal
  | object
deriving DecidableEq

/-- Rendering verbosity tier. -/
inductive DetailLevel
  | full
  | medium
  | minimal
deriving DecidableEq

/-- The `datetime` values, modelled as integer timestamps. -/
abbrev PyDateTime := Int

/-- The `HairDetails`. -/
structure HairDetails where
  color : Option Attribute
  length : Option Attribute
  style : Option Attribute
  texture : Option Attribute
deriving DecidableEq

/-- The `HairDetails.to_prompt_block` (space-joined). -/
def HairDetails.toPromptBlock (h : HairDetails) (d : DetailLevel) : PyStr :=
  let parts : List PyStr :=
    (match h.color with
      | some a => [a.value ++ (" hair").toList]
      | none => []) ++
    (match h.length with
      | some a => if d ≠ .minimal then [a.value] else []
      | none => []) ++
    (match h.style with
      | some a => if d = .full then [a.value ++ (" style").toList] else []
      | none => []) ++
    (match h.texture with
      | some a => if d = .full then [a.value ++ (" texture").toList] else []
      | none => [])
  joinWith [' '] parts

/-- The `FaceDetails`. -/
structure FaceDetails where
  shape : Option Attribute
  skin_tone : Option Attribute
  eye_color : Option Attribute
  eye_shape : Option Attribute
  nose : Option Attribute
  lips : Option Attribute
  facial_hair : Option Attribute
  distinguishing_features : Option Attribute
deriving DecidableEq

/-- The `FaceDetails.to_prompt_block`. -/
def FaceDetails.toPromptBlock (f : FaceDetails) (d : DetailLevel) : PyStr :=
  let parts : List PyStr :=
    (match f.skin_tone with
      | some a => [a.value ++ (" skin").toList]
      | none => []) ++
    (match f.eye_color with
      | some a => if d ≠ .minimal then [a.value ++ (" eyes").toList] else []
      | none => []) ++
    (match f.facial_hair with
      | some a =>
        if a.value ≠ ("none").toList ∧ d ≠ .minimal then
          [("with ").toList ++ a.value] else []
      | none => []) ++
    (if d = .full then
      (match f.shape with
        | some a => [a.value ++ (" face").toList]
        | none => []) ++
      (match f.distinguishing_features with
        | some a => [a.value]
        | none => [])
     else [])
  joinWith (", ").toList parts

/-- The `ClothingDetails`. -/
structure ClothingDetails where
  upper_body : Option Attribute
  lower_body : Option Attribute
  footwear : Option Attribute
  accessories : Option Attribute
  style : Option Attribute
  colors : Option Attribute
deriving DecidableEq

/-- The `ClothingDetails.to_prompt_block`; the `colors` value is prefixed to the
upper-body item only at `full` detail. -/
def ClothingDetails.toPromptBlock (c : ClothingDetails) (d : DetailLevel) : PyStr :=
  let parts : List PyStr :=
    (match c.style with
      | some a => [a.value ++ (" attire").toList]
      | none => []) ++
    (match c.upper_body with
      | some a =>
        if d ≠ .minimal then
          let colorPre : PyStr :=
            match c.colors with
            | some col => if d = .full then col.value ++ [' '] else []
            | none => []
          [colorPre ++ a.value]
        else []
      | none => []) ++
    (match c.lower_body with
      | some a => if d = .full then [a.value] else []
      | none => []) ++
    (match c.accessories with
      | some a => if d = .full then [("wearing ").toList ++ a.value] else []
      | none => [])
  joinWith (", ").toList parts

/-- The `BodyDetails`. -/
structure BodyDetails where
  build : Option Attribute
  height : Option Attribute
  posture : Option Attribute
  age_range : Option Attribute
deriving DecidableEq

/-- The `BodyDetails.to_prompt_block`. -/
def BodyDetails.toPromptBlock (b : BodyDetails) (d : DetailLevel) : PyStr :=
  let parts : List PyStr :=
    (match b.age_range with
      | some a => [a.value]
      | none => []) ++
    (match b.build with
      | some a => if d ≠ .minimal then [a.value ++ (" build").toList] else []
      | none => []) ++
    (match b.height with
      | some a => if d = .full then [a.value] else []
      | none => [])
  joinWith (", ").toList parts

/-- The `HumanDetails`. -/
structure HumanDetails where
  gender : Option Attribute
  hair : Option HairDetails
  face : Option FaceDetails
  body : Option BodyDetails
  clothing : Option ClothingDetails
  expression : Option Attribute
  pose : Option Attribute
deriving DecidableEq

/-- The `HumanDetails.to_prompt_block`: gender, body, face, hair, clothing
(skipped at `minimal`), expression, pose; nested blocks are appended only
when non-empty. -/
def HumanDetails.toPromptBlock (h : HumanDetails) (d : DetailLevel) : PyStr :=
  let parts : List PyStr :=
    (match h.gender with
      | some a => [a.value]
      | none => []) ++
    (match h.body with
      | some b => let s := b.toPromptBlock d; if s.isEmpty then [] else [s]
      | none => []) ++
    (match h.face with
      | some f => let s := f.toPromptBlock d; if s.isEmpty then [] else [s]
      | none => []) ++
    (match h.hair with
      | some hr => let s := hr.toPromptBlock d; if s.isEmpty then [] else [s]
      | none => []) ++
    (match h.clothing with
      | some c =>
        if d ≠ .minimal then
          let s := c.toPromptBlock d; if s.isEmpty then [] else [s]
        else []
      | none => []) ++
    (match h.expression with
      | some a => if d ≠ .minimal then [a.value ++ (" expression").toList] else []
      | none => []) ++
    (match h.pose with
      | some a => if d = .full then [a.value] else []
      | none => [])
  joinWith (", ").toList parts

/-- The `AnimalDetails`. -/
structure AnimalDetails where
  species : Option Attribute
  breed : Option Attribute
  color : Option Attribute
  pattern : Option Attribute
  size : Option Attribute
  features : Option Attribute
  behavior : Option Attribute
deriving DecidableEq

/-- The `AnimalDetails.to_prompt_block` (breed takes precedence over species). -/
def AnimalDetails.toPromptBlock (an : AnimalDetails) (d : DetailLevel) : PyStr :=
  let parts : List PyStr :=
    (match an.breed with
      | some a => [a.value]
      | none =>
        match an.species with
        | some a => [a.value]
        | none => []) ++
    (match an.color with
      | some a => [a.value]
      | none => []) ++
    (match an.pattern with
      | some a => if d ≠ .minimal then [a.value] else []
      | none => []) ++
    (match an.size with
      | some a => if d ≠ .minimal then [a.value ++ (" sized").toList] else []
      | none => []) ++
    (match an.features with
      | some a => if d = .full then [("with ").toList ++ a.value] else []
      | none => []) ++
    (match an.behavior with
      | some a => if d = .full then [("appearing ").toList ++ a.value] else []
      | none => [])
  joinWith (", ").toList parts

/-- The `ObjectDetails`. -/
structure ObjectDetails where
  category : Option Attribute
  brand_style : Option Attribute
  material : Option Attribute
  color : Option Attribute
  finish : Option Attribute
  size : Option Attribute
  condition : Option Attribute
  key_features : Option Attribute
deriving DecidableEq

/-- The `ObjectDetails.to_prompt_block`. -/
def ObjectDetails.toPromptBlock (o : ObjectDetails) (d : DetailLevel) : PyStr :=
  let parts : List PyStr :=
    (match o.category with
      | some a => [a.value]
      | none => []) ++
    (match o.brand_style with
      | some a => if d ≠ .minimal then [a.value ++ (" style").toList] else []
      | none => []) ++
    (match o.color with
      | some a => [a.value]
      | none => []) ++
    (match o.material with
      | some a => if d ≠ .minimal then [a.value] else []
      | none => []) ++
    (match o.finish with
      | some a => if d = .full then [a.value ++ (" finish").toList] else []
      | none => []) ++
    (match o.size with
      | some a => if d = .full then [a.value] else []
      | none => []) ++
    (match o.key_features with
      | some a => if d = .full then [a.value] else []
      | none => [])
  joinWith (", ").toList parts

/-- The `SubjectSheet`: unified subject sheet for humans, animals and objects. -/
structure SubjectSheet where
  id : PyStr
  name : Option PyStr
  subject_type : SubjectType
  role : Option PyStr
  human_details : Option HumanDetails
  animal_details : Option AnimalDetails
  object_details : Option ObjectDetails
  description : Option Attribute
  created_at : PyDateTime
  updated_at : PyDateTime
deriving DecidableEq

/-- The `SubjectSheet.to_prompt_block`: a `description` override short-circuits
at `minimal`; the role tag appears only at `full`; the type-matching detail
bundle renders; the description is appended parenthesised at `full`.  Parts
are joined with spaces after dropping empties (`" ".join(filter(None, ...))`). -/
def SubjectSheet.toPromptBlock (s : SubjectSheet) (d : DetailLevel) : PyStr :=
  match s.description, d with
  | some desc, .minimal => desc.value
  | _, _ =>
    let parts : List PyStr :=
      (match s.role with
        | some r => if !r.isEmpty ∧ d = .full then [('[' :: r) ++ [']']] else []
        | none => []) ++
      (if s.subject_type = .human then
        match s.human_details with
        | some h => [h.toPromptBlock d]
        | none => []
       else if s.subject_type = .animal then
        match s.animal_details with
        | some a => [a.toPromptBlock d]
        | none => []
       else
        match s.object_details with
        | some o => [o.toPromptBlock d]
        | none => []) ++
      (match s.description with
        | some desc => if d = .full then [('(' :: desc.value) ++ [')']] else []
        | none => [])
    joinNonEmpty [' '] parts

/-- The `LightingDetails`. -/
structure LightingDetails where
  type : Option Attribute
  direction : Option Attribute
  quality : Option Attribute
  color_temp : Option Attribute
  intensity : Option Attribute
  source : Option Attribute
deriving DecidableEq

/-- The `LightingDetails.to_prompt_block`. -/
def LightingDetails.toPromptBlock (l : LightingDetails) (d : DetailLevel) : PyStr :=
  let parts : List PyStr :=
    (match l.type with
      | some a => [a.value ++ (" lighting").toList]
      | none => []) ++
    (match l.color_temp with
      | some a => if d ≠ .minimal then [a.value] else []
      | none => []) ++
    (match l.source with
      | some a => if d = .full then [("from ").toList ++ a.value] else []
      | none => []) ++
    (match l.quality with
      | some a => if d = .full then [a.value] else []
      | none => [])
  joinWith (", ").toList parts

/-- The `EnvironmentSheet`. -/
structure EnvironmentSheet where
  id : PyStr
  name : Option PyStr
  setting_type : Option Attribute
  location : Option Attribute
  specific_area : Option Attribute
  mood : Option Attribute
  time_of_day : Option Attribute
  weather : Option Attribute
  lighting : Option LightingDetails
  color_scheme : Option Attribute
  background_elements : Option Attribute
  depth : Option Attribute
  created_at : PyDateTime
  updated_at : PyDateTime
deriving DecidableEq

/-- The `EnvironmentSheet.to_prompt_block` (`", ".join(filter(None, parts))`). -/
def EnvironmentSheet.toPromptBlock (e : EnvironmentSheet) (d : DetailLevel) : PyStr :=
  let parts : List PyStr :=
    (match e.location with
      | some a => [a.value]
      | none => []) ++
    (match e.specific_area with
      | some a => if d ≠ .minimal then [a.value] else []
      | none => []) ++
    (match e.time_of_day with
      | some a => if d ≠ .minimal then [a.value] else []
      | none => []) ++
    (match e.mood with
      | some a => [a.value ++ (" atmosphere").toList]
      | none => []) ++
    (match e.lighting with
      | some l => let s := l.toPromptBlock d; if s.isEmpty then [] else [s]
      | none => []) ++
    (if d = .full then
      (match e.color_scheme with
        | some a => [a.value]
        | none => []) ++
      (match e.background_elements with
        | some a => [("with ").toList ++ a.value]
        | none => []) ++
      (match e.depth with
        | some a => [a.value ++ (" depth of field").toList]
        | none => [])
     else [])
  joinNonEmpty (", ").toList parts

/-- The `CameraDetails`. -/
structure CameraDetails where
  angle : Option Attribute
  shot_type : Option Attribute
  movement : Option Attribute
  lens : Option Attribute
deriving DecidableEq

/-- The `CameraDetails.to_prompt_block`. -/
def CameraDetails.toPromptBlock (c : CameraDetails) (d : DetailLevel) : PyStr :=
  let parts : List PyStr :=
    (match c.shot_type with
      | some a => [a.value ++ (" shot").toList]
      | none => []) ++
    (match c.angle with
      | some a => if d ≠ .minimal then [a.value ++ (" angle").toList] else []
      | none => []) ++
    (match c.lens with
      | some a => if d = .full then [a.value ++ (" lens").toList] else []
      | none => [])
  joinWith (", ").toList parts

/-- The `VisualStyle`. -/
structure VisualStyle where
  id : PyStr
  name : Option PyStr
  style : Option Attribute
  tone : Option Attribute
  color_grade : Option Attribute
  contrast : Option Attribute
  camera : Option CameraDetails
  aspect_ratio : Option Attribute
  quality : Option Attribute
  visual_motif : Option Attribute
  transition_style : Option Attribute
  created_at : PyDateTime
  updated_at : PyDateTime
deriving DecidableEq

/-- The `VisualStyle.to_prompt_block` (`", ".join(filter(None, parts))`). -/
def VisualStyle.toPromptBlock (v : VisualStyle) (d : DetailLevel) : PyStr :=
  let parts : List PyStr :=
    (match v.style with
      | some a => [a.value]
      | none => []) ++
    (match v.quality with
      | some a => if d ≠ .minimal then [a.value] else []
      | none => []) ++
    (match v.tone with
      | some a => [a.value ++ (" tone").toList]
      | none => []) ++
    (match v.color_grade with
      | some a => if d ≠ .minimal then [a.value ++ (" color").toList] else []
      | none => []) ++
    (match v.camera with
      | some c => let s := c.toPromptBlock d; if s.isEmpty then [] else [s]
      | none => []) ++
    (match v.visual_motif with
      | some a => if d = .full then [("with ").toList ++ a.value] else []
      | none => [])
  joinNonEmpty (", ").toList parts

/-- The `VideoConsistencyState`: complete consistency state for a session. -/
structure VideoConsistencyState where
  id : PyStr
  session_id : PyStr
  subjects : List SubjectSheet
  environment : Option EnvironmentSheet
  style : Option VisualStyle
  consistent_elements : Option PyStr
  visual_motif : Option PyStr
  version : Int
  created_at : PyDateTime
  updated_at : PyDateTime
deriving DecidableEq

/-- The `VideoConsistencyState.get_subject_by_id`: first subject with the id. -/
def VideoConsistencyState.getSubjectById
    (st : VideoConsistencyState) (sid : PyStr) : Option SubjectSheet :=
  st.subjects.find? (fun s => s.id == sid)

/-! ### Prompt assembler (src/demo/consistency/assembler.py) -/

/-- Target provider for keyframe prompts. -/
inductive Provider
  | imagen3
  | wan
deriving DecidableEq

/-- The `PromptAssembler`: holds an optional consistency state. -/
structure PromptAssembler where
  state : Option VideoConsistencyState

/-- The `ValueError` message raised when no state is set. -/
def noStateMsg : PyStr := ("No consistency state set. Call set_state() first.").toList

/-- The `PromptAssembler._get_subject`, on an attached state: first subject in
the list with the given id (an empty subject list yields `none`). -/
def getSubjectIn (st : VideoConsistencyState) (sid : PyStr) : Option SubjectSheet :=
  st.subjects.find? (fun s => s.id == sid)

/-- The `PromptAssembler._get_style_block`, on an attached state: `VisualStyle`
defines `to_prompt_block`, so the `hasattr` branch of the source always
delegates to it; without a style the block is empty. -/
def getStyleBlock (st : VideoConsistencyState) (d : DetailLevel) : PyStr :=
  match st.style with
  | none => []
  | some sty => sty.toPromptBlock d

/-- Python truthiness for an optional string argument (`if action:` is false
for both `None` and the empty string). -/
def optStrParts (o : Option PyStr) (render : PyStr → PyStr) : List PyStr :=
  match o with
  | none => []
  | some s => if s.isEmpty then [] else [render s]

/-- The environment part shared by the assembly methods: rendered only when
`environment_id` is truthy and equals the state's single environment id. -/
def envParts (st : VideoConsistencyState) (envId : Option PyStr)
    (d : DetailLevel) : List PyStr :=
  match envId, st.environment with
  | some eid, some env =>
    if !eid.isEmpty ∧ env.id = eid then
      let b := env.toPromptBlock d
      if b.isEmpty then [] else [b]
    else []
  | _, _ => []

/-- Body of `PromptAssembler.assemble_keyframe_prompt` after the state check
(assembler.py lines 100-140): style at `full`; each requested subject at
`full` when in `foreground_subjects` (which defaults to `subject_ids` when
absent or empty) and `minimal` otherwise; stripped action; environment at
`medium` when the id matches; stripped camera; parts joined with `", "`
after dropping empties; compressed only for the `wan` provider. -/
def assembleKeyframeCore (st : VideoConsistencyState) (subjectIds : List PyStr)
    (envId action camera : Option PyStr) (fg : Option (List PyStr))
    (provider : Provider) : PyStr :=
  let fgs := match fg with
    | none => subjectIds
    | some l => if l.isEmpty then subjectIds else l
  let styleParts :=
    match st.style with
    | none => []
    | some _ =>
      let b := getStyleBlock st .full
      if b.isEmpty then [] else [b]
  let subjectParts := subjectIds.flatMap (fun sid =>
    match getSubjectIn st sid with
    | none => []
    | some sheet =>
      let d := if fgs.contains sid then DetailLevel.full else .minimal
      let b := sheet.toPromptBlock d
      if b.isEmpty then [] else [b])
  let parts := styleParts ++ subjectParts ++
    optStrParts action pyStrip ++ envParts st envId .medium ++
    optStrParts camera pyStrip
  let prompt := joinNonEmpty (", ").toList parts
  if provider = .wan then compressForWan prompt 800 else prompt

/-- The `PromptAssembler.assemble_keyframe_prompt` (raises without a state). -/
def assembleKeyframePrompt (a : PromptAssembler) (subjectIds : List PyStr)
    (envId action camera : Option PyStr) (fg : Option (List PyStr))
    (provider : Provider) : Except PyStr PyStr :=
  match a.state with
  | none => .error noStateMsg
  | some st => .ok (assembleKeyframeCore st subjectIds envId action camera fg provider)

/-- Body of `PromptAssembler.assemble_video_segment_prompt` after the state
check (assembler.py lines 169-209): style at `minimal`; only the first
requested subject, at `medium`; stripped action and motion hint; environment
at `minimal`; stripped camera; joined with `", "`; always compressed with
target 800. -/
def assembleVideoSegmentCore (st : VideoConsistencyState)
    (subjectIds : List PyStr)
    (envId action camera motionHint : Option PyStr) : PyStr :=
  let styleParts :=
    match st.style with
    | none => []
    | some _ =>
      let b := getStyleBlock st .minimal
      if b.isEmpty then [] else [b]
  let subjectParts :=
    match subjectIds.head? with
    | none => []
    | some sid0 =>
      match getSubjectIn st sid0 with
      | none => []
      | some sheet =>
        let b := sheet.toPromptBlock .medium
        if b.isEmpty then [] else [b]
  let parts := styleParts ++ subjectParts ++
    optStrParts action pyStrip ++ optStrParts motionHint pyStrip ++
    envParts st envId .minimal ++ optStrParts camera pyStrip
  compressForWan (joinNonEmpty (", ").toList parts) 800

/-- The `PromptAssembler.assemble_video_segment_prompt` (raises without a state). -/
def assembleVideoSegmentPrompt (a : PromptAssembler) (subjectIds : List PyStr)
    (envId action camera motionHint : Option PyStr) : Except PyStr PyStr :=
  match a.state with
  | none => .error noStateMsg
  | some st =>
    .ok (assembleVideoSegmentCore st subjectIds envId action camera motionHint)

/-- The `ValueError` message of `assemble_reference_prompt` for an unknown
subject id. -/
def unknownSubjectMsg (sid : PyStr) : PyStr :=
  ("Subject '").toList ++ sid ++ ("' not found in consistency state").toList

/-- The `PromptAssembler.assemble_reference_prompt` (assembler.py lines 211-261):
raises without a state; raises when the subject id is unknown; otherwise
style at `medium`, the subject at `full`, stripped pose, the background
argument, and a fixed trailing instruction, joined with `", "` after
dropping empties.  Never compressed. -/
def assembleReferencePrompt (a : PromptAssembler) (sid : PyStr)
    (pose : Option PyStr) (background : PyStr) : Except PyStr PyStr :=
  match a.state with
  | none => .error noStateMsg
  | some st =>
    match getSubjectIn st sid with
    | none => .error (unknownSubjectMsg sid)
    | some sheet =>
      let styleParts :=
        match st.style with
        | none => []
        | some _ =>
          let b := getStyleBlock st .medium
          if b.isEmpty then [] else [b]
      let subjectParts :=
        let b := sheet.toPromptBlock .full
        if b.isEmpty then [] else [b]
      let parts := styleParts ++ subjectParts ++ optStrParts pose pyStrip ++
        [background] ++
        [("clear lighting, full visibility, reference sheet style").toList]
      .ok (joinNonEmpty (", ").toList parts)

/-- The prompt type of `estimate_prompt_length`. -/
inductive PromptType
  | keyframe
  | video
deriving DecidableEq

/-- The breakdown dict returned by `estimate_prompt_length`. -/
structure Estimates where
  style : Nat
  subjects : Nat
  action : Nat
  environment : Nat
  camera : Nat
  total : Nat
deriving DecidableEq

/-- The all-zero breakdown (the initial `estimates` dict of the source). -/
def zeroEstimates : Estimates := ⟨0, 0, 0, 0, 0, 0⟩

/-- The `PromptAssembler.estimate_prompt_length` (assembler.py lines 392-450).
Without a state it returns the all-zero dict (it does not raise).  With a
state: a single `detail` - `full` for keyframe, `medium` for video - is used
for both the style block and every requested subject; the environment uses
`medium` for keyframe and `minimal` for video; `action`/`camera` count their
raw lengths when truthy.  The total adds 2 characters per join point between
the non-zero components. -/
def estimatePromptLength (a : PromptAssembler) (subjectIds : List PyStr)
    (envId action camera : Option PyStr) (ptype : PromptType) : Estimates :=
  match a.state with
  | none => zeroEstimates
  | some st =>
    let d := if ptype = .keyframe then DetailLevel.full else .medium
    let styleLen :=
      match st.style with
      | none => 0
      | some _ => (getStyleBlock st d).length
    let subjectsLen :=
      (subjectIds.map (fun sid =>
        match getSubjectIn st sid with
        | none => 0
        | some sheet => (sheet.toPromptBlock d).length)).sum
    let actionLen :=
      match action with
      | none => 0
      | some s => if s.isEmpty then 0 else s.length
    let envLen :=
      match envId, st.environment with
      | some eid, some env =>
        if !eid.isEmpty ∧ env.id = eid then
          (env.toPromptBlock (if ptype = .keyframe then .medium else .minimal)).length
        else 0
      | _, _ => 0
    let cameraLen :=
      match camera with
      | none => 0
      | some s => if s.isEmpty then 0 else s.length
    let comps := [styleLen, subjectsLen, actionLen, envLen, cameraLen]
    let numParts := comps.countP (fun v => decide (0 < v))
    let separators := (numParts - 1) * 2
    ⟨styleLen, subjectsLen, actionLen, envLen, cameraLen,
      comps.sum + separators⟩

/-! ### Consistency manager (src/demo/consistency/manager.py)

The storage collaborator (`db_module`) is modelled by whether its
`save_consistency_state` call raises; `ConsistencyManager.save` is a function
from the manager (plus the current time) to the returned boolean and the
updated manager. -/

/-- The injected storage collaborator, abstracted to the behaviour `save`
depends on: whether `save_consistency_state` raises. -/
structure DbModule where
  save_raises : Bool
deriving DecidableEq

/-- The `ConsistencyManager` (the fields `session_id`, `_db`, `_state`,
`_dirty`). -/
structure ConsistencyManager where
  session_id : PyStr
  db : Option DbModule
  state : Option VideoConsistencyState
  dirty : Bool
deriving DecidableEq

/-- The `ConsistencyManager.save` (manager.py lines 67-85): returns `False` when
no db is configured or no state is loaded; otherwise refreshes `updated_at`
and increments `version` BEFORE attempting persistence; a collaborator
exception is caught and `False` returned, leaving the dirty flag untouched;
on success the dirty flag is cleared. -/
def ConsistencyManager.save (m : ConsistencyManager) (now : PyDateTime) :
    Bool × ConsistencyManager :=
  match m.db, m.state with
  | none, _ => (false, m)
  | some _, none => (false, m)
  | some db, some st =>
    let st' := { st with updated_at := now, version := st.version + 1 }
    if db.save_raises then
      (false, { m with state := some st' })
    else
      (true, { m with state := some st', dirty := false })

/-- The in-memory version counter of a manager's loaded state. -/
def mgrVersion (m : ConsistencyManager) : Option Int :=
  m.state.map (fun st => st.version)

/-! ### Serialization (`to_dict` / `from_dict`, pydantic `model_dump(mode="json")`
and `model_validate`)

`model_dump(mode="json")` turns enums into their string tags and datetimes
into ISO strings; `model_validate` parses them back.  The dump of each model
is a mirror structure whose enum fields are strings (datetimes are modelled
as integer timestamps throughout, so their dump is the identity). -/

/-- The string tag an enum `ConfidenceLevel` dumps to. -/
def confidenceLevelStr : ConfidenceLevel → PyStr
  | .confirmed => ("confirmed").toList
  | .inferred => ("inferred").toList
  | .dflt => ("default").toList

/-- Parsing a `ConfidenceLevel` tag (pydantic rejects unknown tags). -/
def parseConfidenceLevel (s : PyStr) : Option ConfidenceLevel :=
  if s = ("confirmed").toList then some .confirmed
  else if s = ("inferred").toList then some .inferred
  else if s = ("default").toList then some .dflt
  else none

/-- The string tag a `SubjectType` dumps to. -/
def subjectTypeStr : SubjectType → PyStr
  | .human => ("human").toList
  | .animal => ("animal").toList
  | .object => ("object").toList

/-- Parsing a `SubjectType` tag. -/
def parseSubjectType (s : PyStr) : Option SubjectType :=
  if s = ("human").toList then some .human
  else if s = ("animal").toList then some .animal
  else if s = ("object").toList then some .object
  else none

/-- Validate an optional nested field: an absent field stays absent, a
present one must validate. -/
def vOpt {α β : Type} (f : α → Option β) : Option α → Option (Option β)
  | none => some none
  | some x => (f x).map some

/-- Validate each element of a list field. -/
def vList {α β : Type} (f : α → Option β) : List α → Option (List β)
  | [] => some []
  | x :: xs =>
    match f x, vList f xs with
    | some y, some ys => some (y :: ys)
    | _, _ => none

/-- Dump of `Attribute`. -/
structure AttributeDump where
  value : PyStr
  confidence : PyStr
  source_turn : Option Int

/-- The `Attribute.model_dump(mode="json")`. -/
def dumpAttribute (a : Attribute) : AttributeDump :=
  ⟨a.value, confidenceLevelStr a.confidence, a.source_turn⟩

/-- The `Attribute.model_validate`. -/
def validateAttribute (d : AttributeDump) : Option Attribute :=
  (parseConfidenceLevel d.confidence).map
    (fun c => ⟨d.value, c, d.source_turn⟩)

/-- Dump of `HairDetails`. -/
structure HairDump where
  color : Option AttributeDump
  length : Option AttributeDump
  style : Option AttributeDump
  texture : Option AttributeDump

/-- The `HairDetails` dump. -/
def dumpHair (h : HairDetails) : HairDump :=
  ⟨h.color.map dumpAttribute, h.length.map dumpAttribute,
   h.style.map dumpAttribute, h.texture.map dumpAttribute⟩

/-- The `HairDetails` validation. -/
def validateHair (d : HairDump) : Option HairDetails :=
  match vOpt validateAttribute d.color, vOpt validateAttribute d.length,
      vOpt validateAttribute d.style, vOpt validateAttribute d.texture with
  | some c, some l, some s, some t => some ⟨c, l, s, t⟩
  | _, _, _, _ => none

/-- Dump of `FaceDetails`. -/
structure FaceDump where
  shape : Option AttributeDump
  skin_tone : Option AttributeDump
  eye_color : Option AttributeDump
  eye_shape : Option AttributeDump
  nose : Option AttributeDump
  lips : Option AttributeDump
  facial_hair : Option AttributeDump
  distinguishing_features : Option AttributeDump

/-- The `FaceDetails` dump. -/
def dumpFace (f : FaceDetails) : FaceDump :=
  ⟨f.shape.map dumpAttribute, f.skin_tone.map dumpAttribute,
   f.eye_color.map dumpAttribute, f.eye_shape.map dumpAttribute,
   f.nose.map dumpAttribute, f.lips.map dumpAttribute,
   f.facial_hair.map dumpAttribute,
   f.distinguishing_features.map dumpAttribute⟩

/-- The `FaceDetails` validation. -/
def validateFace (d : FaceDump) : Option FaceDetails :=
  match vOpt validateAttribute d.shape, vOpt validateAttribute d.skin_tone,
      vOpt validateAttribute d.eye_color, vOpt validateAttribute d.eye_shape,
      vOpt validateAttribute d.nose, vOpt validateAttribute d.lips,
      vOpt validateAttribute d.facial_hair,
      vOpt validateAttribute d.distinguishing_features with
  | some a, some b, some c, some e, some f, some g, some h, some i =>
    some ⟨a, b, c, e, f, g, h, i⟩
  | _, _, _, _, _, _, _, _ => none

/-- Dump of `ClothingDetails`. -/
structure ClothingDump where
  upper_body : Option AttributeDump
  lower_body : Option AttributeDump
  footwear : Option AttributeDump
  accessories : Option AttributeDump
  style : Option AttributeDump
  colors : Option AttributeDump

/-- The `ClothingDetails` dump. -/
def dumpClothing (c : ClothingDetails) : ClothingDump :=
  ⟨c.upper_body.map dumpAttribute, c.lower_body.map dumpAttribute,
   c.footwear.map dumpAttribute, c.accessories.map dumpAttribute,
   c.style.map dumpAttribute, c.colors.map dumpAttribute⟩

/-- The `ClothingDetails` validation. -/
def validateClothing (d : ClothingDump) : Option ClothingDetails :=
  match vOpt validateAttribute d.upper_body, vOpt validateAttribute d.lower_body,
      vOpt validateAttribute d.footwear, vOpt validateAttribute d.accessories,
      vOpt validateAttribute d.style, vOpt validateAttribute d.colors with
  | some a, some b, some c, some e, some f, some g => some ⟨a, b, c, e, f, g⟩
  | _, _, _, _, _, _ => none

/-- Dump of `BodyDetails`. -/
structure BodyDump where
  build : Option AttributeDump
  height : Option AttributeDump
  posture : Option AttributeDump
  age_range : Option AttributeDump

/-- The `BodyDetails` dump. -/
def dumpBody (b : BodyDetails) : BodyDump :=
  ⟨b.build.map dumpAttribute, b.height.map dumpAttribute,
   b.posture.map dumpAttribute, b.age_range.map dumpAttribute⟩

/-- The `BodyDetails` validation. -/
def validateBody (d : BodyDump) : Option BodyDetails :=
  match vOpt validateAttribute d.build, vOpt validateAttribute d.height,
      vOpt validateAttribute d.posture, vOpt validateAttribute d.age_range with
  | some a, some b, some c, some e => some ⟨a, b, c, e⟩
  | _, _, _, _ => none

/-- Dump of `HumanDetails`. -/
structure HumanDump where
  gender : Option AttributeDump
  hair : Option HairDump
  face : Option FaceDump
  body : Option BodyDump
  clothing : Option ClothingDump
  expression : Option AttributeDump
  pose : Option AttributeDump

/-- The `HumanDetails` dump. -/
def dumpHuman (h : HumanDetails) : HumanDump :=
  ⟨h.gender.map dumpAttribute, h.hair.map dumpHair, h.face.map dumpFace,
   h.body.map dumpBody, h.clothing.map dumpClothing,
   h.expression.map dumpAttribute, h.pose.map dumpAttribute⟩

/-- The `HumanDetails` validation. -/
def validateHuman (d : HumanDump) : Option HumanDetails :=
  match vOpt validateAttribute d.gender, vOpt validateHair d.hair,
      vOpt validateFace d.face, vOpt validateBody d.body,
      vOpt validateClothing d.clothing, vOpt validateAttribute d.expression,
      vOpt validateAttribute d.pose with
  | some a, some b, some c, some e, some f, some g, some h =>
    some ⟨a, b, c, e, f, g, h⟩
  | _, _, _, _, _, _, _ => none

/-- Dump of `AnimalDetails`. -/
structure AnimalDump where
  species : Option AttributeDump
  breed : Option AttributeDump
  color : Option AttributeDump
  pattern : Option AttributeDump
  size : Option AttributeDump
  features : Option AttributeDump
  behavior : Option AttributeDump

/-- The `AnimalDetails` dump. -/
def dumpAnimal (a : AnimalDetails) : AnimalDump :=
  ⟨a.species.map dumpAttribute, a.breed.map dumpAttribute,
   a.color.map dumpAttribute, a.pattern.map dumpAttribute,
   a.size.map dumpAttribute, a.features.map dumpAttribute,
   a.behavior.map dumpAttribute⟩

/-- The `AnimalDetails` validation. -/
def validateAnimal (d : AnimalDump) : Option AnimalDetails :=
  match vOpt validateAttribute d.species, vOpt validateAttribute d.breed,
      vOpt validateAttribute d.color, vOpt validateAttribute d.pattern,
      vOpt validateAttribute d.size, vOpt validateAttribute d.features,
      vOpt validateAttribute d.behavior with
  | some a, some b, some c, some e, some f, some g, some h =>
    some ⟨a, b, c, e, f, g, h⟩
  | _, _, _, _, _, _, _ => none

/-- Dump of `ObjectDetails`. -/
structure ObjectDump where
  category : Option AttributeDump
  brand_style : Option AttributeDump
  material : Option AttributeDump
  color : Option AttributeDump
  finish : Option AttributeDump
  size : Option AttributeDump
  condition : Option AttributeDump
  key_features : Option AttributeDump

/-- The `ObjectDetails` dump. -/
def dumpObject (o : ObjectDetails) : ObjectDump :=
  ⟨o.category.map dumpAttribute, o.brand_style.map dumpAttribute,
   o.material.map dumpAttribute, o.color.map dumpAttribute,
   o.finish.map dumpAttribute, o.size.map dumpAttribute,
   o.condition.map dumpAttribute, o.key_features.map dumpAttribute⟩

/-- The `ObjectDetails` validation. -/
def validateObject (d : ObjectDump) : Option ObjectDetails :=
  match vOpt validateAttribute d.category, vOpt validateAttribute d.brand_style,
      vOpt validateAttribute d.material, vOpt validateAttribute d.color,
      vOpt validateAttribute d.finish, vOpt validateAttribute d.size,
      vOpt validateAttribute d.condition,
      vOpt validateAttribute d.key_features with
  | some a, some b, some c, some e, some f, some g, some h, some i =>
    some ⟨a, b, c, e, f, g, h, i⟩
  | _, _, _, _, _, _, _, _ => none

/-- Dump of `SubjectSheet`. -/
structure SubjectDump where
  id : PyStr
  name : Option PyStr
  subject_type : PyStr
  role : Option PyStr
  human_details : Option HumanDump
  animal_details : Option AnimalDump
  object_details : Option ObjectDump
  description : Option AttributeDump
  created_at : PyDateTime
  updated_at : PyDateTime

/-- The `SubjectSheet` dump. -/
def dumpSubject (s : SubjectSheet) : SubjectDump :=
  ⟨s.id, s.name, subjectTypeStr s.subject_type, s.role,
   s.human_details.map dumpHuman, s.animal_details.map dumpAnimal,
   s.object_details.map dumpObject, s.description.map dumpAttribute,
   s.created_at, s.updated_at⟩

/-- The `SubjectSheet` validation. -/
def validateSubject (d : SubjectDump) : Option SubjectSheet :=
  match parseSubjectType d.subject_type, vOpt validateHuman d.human_details,
      vOpt validateAnimal d.animal_details,
      vOpt validateObject d.object_details,
      vOpt validateAttribute d.description with
  | some ty, some h, some a, some o, some desc =>
    some ⟨d.id, d.name, ty, d.role, h, a, o, desc, d.created_at, d.updated_at⟩
  | _, _, _, _, _ => none

/-- Dump of `LightingDetails`. -/
structure LightingDump where
  type : Option AttributeDump
  direction : Option AttributeDump
  quality : Option AttributeDump
  color_temp : Option AttributeDump
  intensity : Option AttributeDump
  source : Option AttributeDump

/-- The `LightingDetails` dump. -/
def dumpLighting (l : LightingDetails) : LightingDump :=
  ⟨l.type.map dumpAttribute, l.direction.map dumpAttribute,
   l.quality.map dumpAttribute, l.color_temp.map dumpAttribute,
   l.intensity.map dumpAttribute, l.source.map dumpAttribute⟩

/-- The `LightingDetails` validation. -/
def validateLighting (d : LightingDump) : Option LightingDetails :=
  match vOpt validateAttribute d.type, vOpt validateAttribute d.direction,
      vOpt validateAttribute d.quality, vOpt validateAttribute d.color_temp,
      vOpt validateAttribute d.intensity, vOpt validateAttribute d.source with
  | some a, some b, some c, some e, some f, some g => some ⟨a, b, c, e, f, g⟩
  | _, _, _, _, _, _ => none

/-- Dump of `EnvironmentSheet`. -/
structure EnvironmentDump where
  id : PyStr
  name : Option PyStr
  setting_type : Option AttributeDump
  location : Option AttributeDump
  specific_area : Option AttributeDump
  mood : Option AttributeDump
  time_of_day : Option AttributeDump
  weather : Option AttributeDump
  lighting : Option LightingDump
  color_scheme : Option AttributeDump
  background_elements : Option AttributeDump
  depth : Option AttributeDump
  created_at : PyDateTime
  updated_at : PyDateTime

/-- The `EnvironmentSheet` dump. -/
def dumpEnvironment (e : EnvironmentSheet) : EnvironmentDump :=
  ⟨e.id, e.name, e.setting_type.map dumpAttribute,
   e.location.map dumpAttribute, e.specific_area.map dumpAttribute,
   e.mood.map dumpAttribute, e.time_of_day.map dumpAttribute,
   e.weather.map dumpAttribute, e.lighting.map dumpLighting,
   e.color_scheme.map dumpAttribute, e.background_elements.map dumpAttribute,
   e.depth.map dumpAttribute, e.created_at, e.updated_at⟩

/-- The `EnvironmentSheet` validation. -/
def validateEnvironment (d : EnvironmentDump) : Option EnvironmentSheet :=
  match vOpt validateAttribute d.setting_type, vOpt validateAttribute d.location,
      vOpt validateAttribute d.specific_area, vOpt validateAttribute d.mood,
      vOpt validateAttribute d.time_of_day, vOpt validateAttribute d.weather,
      vOpt validateLighting d.lighting, vOpt validateAttribute d.color_scheme,
      vOpt validateAttribute d.background_elements,
      vOpt validateAttribute d.depth with
  | some a, some b, some c, some e, some f, some g, some h, some i, some j,
      some k =>
    some ⟨d.id, d.name, a, b, c, e, f, g, h, i, j, k, d.created_at, d.updated_at⟩
  | _, _, _, _, _, _, _, _, _, _ => none

/-- Dump of `CameraDetails`. -/
structure CameraDump where
  angle : Option AttributeDump
  shot_type : Option AttributeDump
  movement : Option AttributeDump
  lens : Option AttributeDump

/-- The `CameraDetails` dump. -/
def dumpCamera (c : CameraDetails) : CameraDump :=
  ⟨c.angle.map dumpAttribute, c.shot_type.map dumpAttribute,
   c.movement.map dumpAttribute, c.lens.map dumpAttribute⟩

/-- The `CameraDetails` validation. -/
def validateCamera (d : CameraDump) : Option CameraDetails :=
  match vOpt validateAttribute d.angle, vOpt validateAttribute d.shot_type,
      vOpt validateAttribute d.movement, vOpt validateAttribute d.lens with
  | some a, some b, some c, some e => some ⟨a, b, c, e⟩
  | _, _, _, _ => none

/-- Dump of `VisualStyle`. -/
structure StyleDump where
  id : PyStr
  name : Option PyStr
  style : Option AttributeDump
  tone : Option AttributeDump
  color_grade : Option AttributeDump
  contrast : Option AttributeDump
  camera : Option CameraDump
  aspect_ratio : Option AttributeDump
  quality : Option AttributeDump
  visual_motif : Option AttributeDump
  transition_style : Option AttributeDump
  created_at : PyDateTime
  updated_at : PyDateTime

/-- The `VisualStyle` dump. -/
def dumpStyle (v : VisualStyle) : StyleDump :=
  ⟨v.id, v.name, v.style.map dumpAttribute, v.tone.map dumpAttribute,
   v.color_grade.map dumpAttribute, v.contrast.map dumpAttribute,
   v.camera.map dumpCamera, v.aspect_ratio.map dumpAttribute,
   v.quality.map dumpAttribute, v.visual_motif.map dumpAttribute,
   v.transition_style.map dumpAttribute, v.created_at, v.updated_at⟩

/-- The `VisualStyle` validation. -/
def validateStyle (d : StyleDump) : Option VisualStyle :=
  match vOpt validateAttribute d.style, vOpt validateAttribute d.tone,
      vOpt validateAttribute d.color_grade, vOpt validateAttribute d.contrast,
      vOpt validateCamera d.camera, vOpt validateAttribute d.aspect_ratio,
      vOpt validateAttribute d.quality, vOpt validateAttribute d.visual_motif,
      vOpt validateAttribute d.transition_style with
  | some a, some b, some c, some e, some f, some g, some h, some i, some j =>
    some ⟨d.id, d.name, a, b, c, e, f, g, h, i, j, d.created_at, d.updated_at⟩
  | _, _, _, _, _, _, _, _, _ => none

/-- Dump of `VideoConsistencyState`. -/
structure StateDump where
  id : PyStr
  session_id : PyStr
  subjects : List SubjectDump
  environment : Option EnvironmentDump
  style : Option StyleDump
  consistent_elements : Option PyStr
  visual_motif : Option PyStr
  version : Int
  created_at : PyDateTime
  updated_at : PyDateTime

/-- The `VideoConsistencyState.model_dump(mode="json")`: the serialized blob
`ConsistencyManager.to_dict` returns for a loaded state. -/
def dumpState (st : VideoConsistencyState) : StateDump :=
  ⟨st.id, st.session_id, st.subjects.map dumpSubject,
   st.environment.map dumpEnvironment, st.style.map dumpStyle,
   st.consistent_elements, st.visual_motif, st.version,
   st.created_at, st.updated_at⟩

/-- The `VideoConsistencyState.model_validate`. -/
def validateState (d : StateDump) : Option VideoConsistencyState :=
  match vList validateSubject d.subjects,
      vOpt validateEnvironment d.environment, vOpt validateStyle d.style with
  | some subs, some env, some sty =>
    some ⟨d.id, d.session_id, subs, env, sty, d.consistent_elements,
      d.visual_motif, d.version, d.created_at, d.updated_at⟩
  | _, _, _ => none

/-- The `ConsistencyManager.from_dict` (manager.py lines 405-418): validate the
blob, re-pin `session_id` to the manager's own session id, mark dirty,
return `True`; on a validation error return `False` and leave the manager
unchanged. -/
def ConsistencyManager.fromDict (m : ConsistencyManager) (d : StateDump) :
    Bool × ConsistencyManager :=
  match validateState d with
  | some st =>
    let pinned := { st with session_id := m.session_id }
    (true, { m with state := some pinned, dirty := true })
  | none => (false, m)

/-! ### Dynamic typing of `update_subject` (manager.py lines 193-201)

`update_subject` assigns `setattr(details, key, Attribute(...))` for every
keyword whose name is an attribute of the details object - including the
nested bundle fields `hair`/`face`/`body`/`clothing` of `HumanDetails`
(pydantic does not validate plain assignment).  A slot that is supposed to
hold a nested details object may therefore dynamically hold an `Attribute`
instead; `HumanDetails.to_prompt_block` then calls `.to_prompt_block()` on
it and raises `AttributeError`.  This is modelled with `DynSlot`: a slot
holding either the proper nested object or a stray `Attribute`, and
`Except Unit` for the possible `AttributeError`. -/

/-- A dynamically-typed nested-details slot. -/
inductive DynSlot (α : Type)
  | typed (x : α)
  | stray (a : Attribute)
deriving DecidableEq

/-- The `HumanDetails` with dynamically-typed nested slots. -/
structure HumanDetailsDyn where
  gender : Option Attribute
  hair : Option (DynSlot HairDetails)
  face : Option (DynSlot FaceDetails)
  body : Option (DynSlot BodyDetails)
  clothing : Option (DynSlot ClothingDetails)
  expression : Option Attribute
  pose : Option Attribute
deriving DecidableEq

/-- The `HumanDetails.to_prompt_block` over dynamic slots (schemas.py lines
137-174): calling `.to_prompt_block` on a stray `Attribute` raises
(`Except.error`).  The clothing slot is only touched when the level is not
`minimal`, exactly as in the source. -/
def HumanDetailsDyn.toPromptBlock (h : HumanDetailsDyn) (d : DetailLevel) :
    Except Unit PyStr := do
  let genderParts : List PyStr :=
    match h.gender with
    | some a => [a.value]
    | none => []
  let bodyParts : List PyStr ←
    match h.body with
    | some (.typed b) =>
      pure (let s := b.toPromptBlock d; if s.isEmpty then [] else [s])
    | some (.stray _) => throw ()
    | none => pure []
  let faceParts : List PyStr ←
    match h.face with
    | some (.typed f) =>
      pure (let s := f.toPromptBlock d; if s.isEmpty then [] else [s])
    | some (.stray _) => throw ()
    | none => pure []
  let hairParts : List PyStr ←
    match h.hair with
    | some (.typed hr) =>
      pure (let s := hr.toPromptBlock d; if s.isEmpty then [] else [s])
    | some (.stray _) => throw ()
    | none => pure []
  let clothingParts : List PyStr ←
    if d ≠ .minimal then
      match h.clothing with
      | some (.typed c) =>
        pure (let s := c.toPromptBlock d; if s.isEmpty then [] else [s])
      | some (.stray _) => throw ()
      | none => pure []
    else pure []
  let tailParts : List PyStr :=
    (match h.expression with
      | some a => if d ≠ .minimal then [a.value ++ (" expression").toList] else []
      | none => []) ++
    (match h.pose with
      | some a => if d = .full then [a.value] else []
      | none => [])
  pure (joinWith (", ").toList
    (genderParts ++ bodyParts ++ faceParts ++ hairParts ++ clothingParts ++
      tailParts))

/-- A human `SubjectSheet` with a dynamically-typed details bundle. -/
structure SubjectSheetDyn where
  id : PyStr
  role : Option PyStr
  human_details : Option HumanDetailsDyn
  description : Option Attribute
  updated_at : PyDateTime
deriving DecidableEq

/-- The `SubjectSheet.to_prompt_block` over the dynamic human model. -/
def SubjectSheetDyn.toPromptBlock (s : SubjectSheetDyn) (d : DetailLevel) :
    Except Unit PyStr :=
  match s.description, d with
  | some desc, .minimal => pure desc.value
  | _, _ => do
    let roleParts : List PyStr :=
      match s.role with
      | some r => if !r.isEmpty ∧ d = .full then [('[' :: r) ++ [']']] else []
      | none => []
    let detailParts : List PyStr ←
      match s.human_details with
      | some h => do
        let b ← h.toPromptBlock d
        pure [b]
      | none => pure []
    let descParts : List PyStr :=
      match s.description with
      | some desc => if d = .full then [('(' :: desc.value) ++ [')']] else []
      | none => []
    pure (joinNonEmpty [' '] (roleParts ++ detailParts ++ descParts))

/-- One `setattr(details, key, Attribute(str(value), confidence, turn))`
step of `update_subject` on a human details bundle: `hasattr` holds exactly
for the seven declared fields, so those are overwritten (the four nested
bundle slots receive a stray `Attribute`); any other key is a no-op. -/
def updateHumanDynField (h : HumanDetailsDyn) (key : String) (a : Attribute) :
    HumanDetailsDyn :=
  if key = ("gender") then { h with gender := some a }
  else if key = ("hair") then { h with hair := some (.stray a) }
  else if key = ("face") then { h with face := some (.stray a) }
  else if key = ("body") then { h with body := some (.stray a) }
  else if key = ("clothing") then { h with clothing := some (.stray a) }
  else if key = ("expression") then { h with expression := some a }
  else if key = ("pose") then { h with pose := some a }
  else h

/-- The `ConsistencyManager.update_subject` restricted to a found human subject
and a single keyword update (manager.py lines 180-206): the active details
bundle is `human_details`; the update is applied when the key is an
attribute of the bundle; `updated_at` is refreshed. -/
def updateSubjectDyn (s : SubjectSheetDyn) (key : String) (value : PyStr)
    (confidence : ConfidenceLevel) (turn : Option Int) (now : PyDateTime) :
    SubjectSheetDyn :=
  match s.human_details with
  | none => { s with updated_at := now }
  | some h =>
    { s with
      human_details := some (updateHumanDynField h key ⟨value, confidence, turn⟩),
      updated_at := now }

/-! ### Rendered field sets (for the detail-level monotonicity property)

For each sheet/bundle, `...Fields` computes the set (as a list of labels) of
source fields that `to_prompt_block` surfaces at a given detail level; each
`fIf` mirrors one rendering condition of the source.  Nested bundles are
prefixed with their slot name. -/

/-- A singleton field label under a rendering condition. -/
def fIf (c : Prop) [Decidable c] (n : String) : List String :=
  if c then [n] else []

/-- Prefix nested fields with their slot name. -/
def withPre (pre : String) (l : List String) : List String :=
  l.map (fun n => pre ++ n)

/-- Fields `HairDetails.to_prompt_block` renders. -/
def hairFields (h : HairDetails) (d : DetailLevel) : List String :=
  fIf h.color.isSome ("color") ++
  fIf (h.length.isSome ∧ d ≠ .minimal) ("length") ++
  fIf (h.style.isSome ∧ d = .full) ("style") ++
  fIf (h.texture.isSome ∧ d = .full) ("texture")

/-- Fields `FaceDetails.to_prompt_block` renders. -/
def faceFields (f : FaceDetails) (d : DetailLevel) : List String :=
  fIf f.skin_tone.isSome ("skin_tone") ++
  fIf (f.eye_color.isSome ∧ d ≠ .minimal) ("eye_color") ++
  fIf ((∃ a, f.facial_hair = some a ∧ a.value ≠ ("none").toList) ∧ d ≠ .minimal)
    ("facial_hair") ++
  fIf (f.shape.isSome ∧ d = .full) ("shape") ++
  fIf (f.distinguishing_features.isSome ∧ d = .full) ("distinguishing_features")

/-- Fields `ClothingDetails.to_prompt_block` renders (the `colors` value is
surfaced only as the `full`-detail prefix of a present upper-body item). -/
def clothingFields (c : ClothingDetails) (d : DetailLevel) : List String :=
  fIf c.style.isSome ("style") ++
  fIf (c.upper_body.isSome ∧ d ≠ .minimal) ("upper_body") ++
  fIf (c.upper_body.isSome ∧ d ≠ .minimal ∧ c.colors.isSome ∧ d = .full)
    ("colors") ++
  fIf (c.lower_body.isSome ∧ d = .full) ("lower_body") ++
  fIf (c.accessories.isSome ∧ d = .full) ("accessories")

/-- Fields `BodyDetails.to_prompt_block` renders. -/
def bodyFields (b : BodyDetails) (d : DetailLevel) : List String :=
  fIf b.age_range.isSome ("age_range") ++
  fIf (b.build.isSome ∧ d ≠ .minimal) ("build") ++
  fIf (b.height.isSome ∧ d = .full) ("height")

/-- Fields `HumanDetails.to_prompt_block` renders. -/
def humanFields (h : HumanDetails) (d : DetailLevel) : List String :=
  fIf h.gender.isSome ("gender") ++
  (match h.body with
    | some b => withPre ("body.") (bodyFields b d)
    | none => []) ++
  (match h.face with
    | some f => withPre ("face.") (faceFields f d)
    | none => []) ++
  (match h.hair with
    | some hr => withPre ("hair.") (hairFields hr d)
    | none => []) ++
  (match h.clothing with
    | some c => if d ≠ .minimal then withPre ("clothing.") (clothingFields c d) else []
    | none => []) ++
  fIf (h.expression.isSome ∧ d ≠ .minimal) ("expression") ++
  fIf (h.pose.isSome ∧ d = .full) ("pose")

/-- Fields `AnimalDetails.to_prompt_block` renders (breed shadows species). -/
def animalFields (a : AnimalDetails) (d : DetailLevel) : List String :=
  fIf a.breed.isSome ("breed") ++
  fIf (a.breed = none ∧ a.species.isSome) ("species") ++
  fIf a.color.isSome ("color") ++
  fIf (a.pattern.isSome ∧ d ≠ .minimal) ("pattern") ++
  fIf (a.size.isSome ∧ d ≠ .minimal) ("size") ++
  fIf (a.features.isSome ∧ d = .full) ("features") ++
  fIf (a.behavior.isSome ∧ d = .full) ("behavior")

/-- Fields `ObjectDetails.to_prompt_block` renders. -/
def objectFields (o : ObjectDetails) (d : DetailLevel) : List String :=
  fIf o.category.isSome ("category") ++
  fIf (o.brand_style.isSome ∧ d ≠ .minimal) ("brand_style") ++
  fIf o.color.isSome ("color") ++
  fIf (o.material.isSome ∧ d ≠ .minimal) ("material") ++
  fIf (o.finish.isSome ∧ d = .full) ("finish") ++
  fIf (o.size.isSome ∧ d = .full) ("size") ++
  fIf (o.key_features.isSome ∧ d = .full) ("key_features")

/-- Fields the non-short-circuited body of `SubjectSheet.to_prompt_block`
renders: the role tag at `full`, the type-matching bundle's fields, and the
description supplement at `full`. -/
def subjectFieldsMain (s : SubjectSheet) (d : DetailLevel) : List String :=
  fIf ((∃ r, s.role = some r ∧ ¬r.isEmpty) ∧ d = .full) ("role") ++
  (if s.subject_type = .human then
    match s.human_details with
    | some h => withPre ("human_details.") (humanFields h d)
    | none => []
   else if s.subject_type = .animal then
    match s.animal_details with
    | some a => withPre ("animal_details.") (animalFields a d)
    | none => []
   else
    match s.object_details with
    | some o => withPre ("object_details.") (objectFields o d)
    | none => []) ++
  fIf (s.description.isSome ∧ d = .full) ("description")

/-- Fields `SubjectSheet.to_prompt_block` renders: at `minimal` a present
`description` short-circuits everything else. -/
def subjectFields (s : SubjectSheet) (d : DetailLevel) : List String :=
  match s.description, d with
  | some _, .minimal => [("description")]
  | _, _ => subjectFieldsMain s d

/-- Fields `LightingDetails.to_prompt_block` renders. -/
def lightingFields (l : LightingDetails) (d : DetailLevel) : List String :=
  fIf l.type.isSome ("type") ++
  fIf (l.color_temp.isSome ∧ d ≠ .minimal) ("color_temp") ++
  fIf (l.source.isSome ∧ d = .full) ("source") ++
  fIf (l.quality.isSome ∧ d = .full) ("quality")

/-- Fields `EnvironmentSheet.to_prompt_block` renders. -/
def environmentFields (e : EnvironmentSheet) (d : DetailLevel) : List String :=
  fIf e.location.isSome ("location") ++
  fIf (e.specific_area.isSome ∧ d ≠ .minimal) ("specific_area") ++
  fIf (e.time_of_day.isSome ∧ d ≠ .minimal) ("time_of_day") ++
  fIf e.mood.isSome ("mood") ++
  (match e.lighting with
    | some l => withPre ("lighting.") (lightingFields l d)
    | none => []) ++
  fIf (e.color_scheme.isSome ∧ d = .full) ("color_scheme") ++
  fIf (e.background_elements.isSome ∧ d = .full) ("background_elements") ++
  fIf (e.depth.isSome ∧ d = .full) ("depth")

/-- Fields `CameraDetails.to_prompt_block` renders. -/
def cameraFields (c : CameraDetails) (d : DetailLevel) : List String :=
  fIf c.shot_type.isSome ("shot_type") ++
  fIf (c.angle.isSome ∧ d ≠ .minimal) ("angle") ++
  fIf (c.lens.isSome ∧ d = .full) ("lens")

/-- Fields `VisualStyle.to_prompt_block` renders. -/
def styleFields (v : VisualStyle) (d : DetailLevel) : List String :=
  fIf v.style.isSome ("style") ++
  fIf (v.quality.isSome ∧ d ≠ .minimal) ("quality") ++
  fIf v.tone.isSome ("tone") ++
  fIf (v.color_grade.isSome ∧ d ≠ .minimal) ("color_grade") ++
  (match v.camera with
    | some c => withPre ("camera.") (cameraFields c d)
    | none => []) ++
  fIf (v.visual_motif.isSome ∧ d = .full) ("visual_motif")

/-- Substring occurrence as a proposition: `l` occurs contiguously in
`big`. -/
def infixOf (l big : PyStr) : Prop := ∃ s t, s ++ l ++ t = big

/-- Executable substring check (`needle in hay` for Python strings). -/
def containsSub : PyStr → PyStr → Bool
  | needle, [] => needle.isEmpty
  | needle, c :: rest => needle.isPrefixOf (c :: rest) || containsSub needle rest

/-! ## Auxiliary definitions and concrete sample data used by the
verification below -/

/-- Numeric rank of a detail level. -/
def levelRank : DetailLevel → Nat
  | .minimal => 0
  | .medium => 1
  | .full => 2

/-- The `ConsistencyManager.to_dict` for a loaded manager (the lazy
load-or-create of an unloaded manager goes through the storage collaborator
and fresh uuids, which the round-trip claim does not concern). -/
def ConsistencyManager.toDict (m : ConsistencyManager) : Option StateDump :=
  m.state.map dumpState

/-- The state a manager imports from a blob: the validated state with its
`session_id` re-pinned to the manager's own session id. -/
def repinned (m : ConsistencyManager) (s : VideoConsistencyState) :
    VideoConsistencyState :=
  { s with session_id := m.session_id }

/-- A small concrete state used to witness C1. -/
def sampleStateC1 : VideoConsistencyState :=
  ⟨("state-1").toList, ("sess-1").toList,
   [⟨("subj-1").toList, some (("Sarah").toList), .human, some (("protagonist").toList),
     some ⟨some ⟨("female").toList, .confirmed, some 1⟩, none, none, none, none,
       none, none⟩,
     none, none, none, 0, 0⟩],
   none, none, none, none, 1, 0, 0⟩

/-- A concrete manager whose storage collaborator raises on save. -/
def failingSaveMgr : ConsistencyManager :=
  ⟨("sess-5").toList, some ⟨true⟩,
   some ⟨("state-5").toList, ("sess-5").toList, [], none, none, none, none, 5, 0, 0⟩,
   true⟩

/-- An assembler with no consistency state attached. -/
def detachedAssembler : PromptAssembler := ⟨none⟩

/-- A state with zero subjects (the scenario of the claim). -/
def emptyStateC8 : VideoConsistencyState :=
  ⟨("state-8").toList, ("sess-8").toList, [], none, none, none, none, 1, 0, 0⟩

/-- A state whose visual style renders differently at `minimal` and
`medium` (style "cinematic", color grade "vibrant"). -/
def styleStateC4 : VideoConsistencyState :=
  ⟨("state-4").toList, ("sess-4").toList, [], none,
   some ⟨("style-4").toList, none,
     some ⟨("cinematic").toList, .inferred, none⟩, none,
     some ⟨("vibrant").toList, .inferred, none⟩, none, none, none, none, none,
     none, 0, 0⟩,
   none, none, 1, 0, 0⟩

/-- A subject with a `description` override and nothing else populated. -/
def overrideSubjectC3 : SubjectSheet :=
  ⟨("subj-3").toList, none, .human, none, none, none, none,
   some ⟨("a tall robot").toList, .confirmed, none⟩, 0, 0⟩

/-- A subject without a description override, used to witness C3's amended
subject clause. -/
def plainSubjectC3 : SubjectSheet :=
  ⟨("subj-3p").toList, none, .human, none,
   some ⟨some ⟨("female").toList, .inferred, none⟩, none, none, none, none,
     none, none⟩,
   none, none, none, 0, 0⟩

/-- A rich state (subject with attributes, environment with lighting, style
with camera) recorded under a different session id than the importing
manager's. -/
def richStateC7 : VideoConsistencyState :=
  ⟨("state-7").toList, ("other-session").toList,
   [⟨("subj-7").toList, some (("Sarah").toList), .human,
     some (("protagonist").toList),
     some ⟨some ⟨("female").toList, .confirmed, some 2⟩,
       some ⟨some ⟨("brown").toList, .inferred, some 3⟩, none, none, none⟩,
       none, none, none, none, none⟩,
     none, none, some ⟨("tall").toList, .dflt, none⟩, 0, 0⟩],
   some ⟨("env-7").toList, none, none,
     some ⟨("office").toList, .confirmed, none⟩, none, none, none, none,
     some ⟨some ⟨("natural").toList, .inferred, none⟩, none, none, none,
       none, none⟩,
     none, none, none, 0, 0⟩,
   some ⟨("style-7").toList, none, some ⟨("cinematic").toList, .inferred, none⟩,
     none, none, none,
     some ⟨none, some ⟨("wide").toList, .dflt, none⟩, none, none⟩,
     none, none, none, none, 0, 0⟩,
   none, none, 3, 0, 0⟩

/-- A loaded manager holding `richStateC7`. -/
def richMgrC7 : ConsistencyManager :=
  ⟨("sess-7").toList, none, some richStateC7, false⟩

/-- The foreground subject whose full-detail clothing should appear. -/
def fgSubjectC9 : SubjectSheet :=
  ⟨("subj-a").toList, none, .human, none,
   some ⟨some ⟨("female").toList, .confirmed, none⟩, none, none, none,
     some ⟨some ⟨("navy jacket").toList, .confirmed, none⟩, none, none, none,
       none, none⟩,
     none, none⟩,
   none, none, none, 0, 0⟩

/-- The background subject whose full-detail clothing must NOT appear. -/
def bgSubjectC9 : SubjectSheet :=
  ⟨("subj-b").toList, none, .human, none,
   some ⟨some ⟨("male").toList, .confirmed, none⟩, none, none, none,
     some ⟨some ⟨("red sweater").toList, .confirmed, none⟩, none, none, none,
       none, none⟩,
     none, none⟩,
   none, none, none, 0, 0⟩

/-- A state with the two subjects above. -/
def twoSubjectStateC9 : VideoConsistencyState :=
  ⟨("state-9").toList, ("sess-9").toList, [fgSubjectC9, bgSubjectC9],
   none, none, none, none, 1, 0, 0⟩

/-- A well-typed dynamic human subject before the corrupting update. -/
def dynSubjectC10 : SubjectSheetDyn :=
  ⟨("subj-10").toList, none,
   some ⟨some ⟨("female").toList, .confirmed, none⟩,
     some (.typed ⟨some ⟨("brown").toList, .inferred, none⟩, none, none, none⟩),
     none, none, none, none, none⟩,
   none, 0⟩

/-! ## Monotonicity machinery for rendered field sets -/

/-- A conditional singleton grows when its condition weakens. -/
lemma fIf_mono {c1 c2 : Prop} [Decidable c1] [Decidable c2] (n : String)
    (h : c1 → c2) : fIf c1 n ⊆ fIf c2 n := by
  unfold fIf
  split_ifs with h1 h2
  · exact List.Subset.refl _
  · exact absurd (h h1) h2
  · exact List.nil_subset _
  · exact List.nil_subset _

/-- Concatenation preserves componentwise inclusion. -/
lemma appendSub {α : Type} {a b c d : List α} (h1 : a ⊆ c) (h2 : b ⊆ d) :
    a ++ b ⊆ c ++ d := by
  intro x hx
  rcases List.mem_append.mp hx with hx | hx
  · exact List.mem_append.mpr (Or.inl (h1 hx))
  · exact List.mem_append.mpr (Or.inr (h2 hx))

/-- Prefixing preserves inclusion. -/
lemma withPre_mono (pre : String) {a b : List String} (h : a ⊆ b) :
    withPre pre a ⊆ withPre pre b := by
  intro x hx
  rcases List.mem_map.mp hx with ⟨y, hy, rfl⟩
  exact List.mem_map.mpr ⟨y, h hy, rfl⟩

/-- The `d ≠ minimal` is upward closed in the rank order. -/
lemma ne_minimal_mono {d1 d2 : DetailLevel} (h : levelRank d1 ≤ levelRank d2)
    (h1 : d1 ≠ .minimal) : d2 ≠ .minimal := by
  cases d1 <;> cases d2 <;> simp_all [levelRank]

/-- The `d = full` is upward closed in the rank order. -/
lemma eq_full_mono {d1 d2 : DetailLevel} (h : levelRank d1 ≤ levelRank d2)
    (h1 : d1 = .full) : d2 = .full := by
  cases d1 <;> cases d2 <;> simp_all [levelRank]

/-- The `HairDetails` rendering is monotone in the detail level. -/
lemma hairFields_mono (h : HairDetails) {d1 d2 : DetailLevel}
    (hd : levelRank d1 ≤ levelRank d2) : hairFields h d1 ⊆ hairFields h d2 := by
  unfold hairFields
  refine appendSub (appendSub (appendSub (fIf_mono _ id) (fIf_mono _ ?_))
    (fIf_mono _ ?_)) (fIf_mono _ ?_)
  · exact fun hc => ⟨hc.1, ne_minimal_mono hd hc.2⟩
  · exact fun hc => ⟨hc.1, eq_full_mono hd hc.2⟩
  · exact fun hc => ⟨hc.1, eq_full_mono hd hc.2⟩

/-- The `FaceDetails` rendering is monotone in the detail level. -/
lemma faceFields_mono (f : FaceDetails) {d1 d2 : DetailLevel}
    (hd : levelRank d1 ≤ levelRank d2) : faceFields f d1 ⊆ faceFields f d2 := by
  unfold faceFields
  refine appendSub (appendSub (appendSub (appendSub (fIf_mono _ id)
    (fIf_mono _ ?_)) (fIf_mono _ ?_)) (fIf_mono _ ?_)) (fIf_mono _ ?_)
  · exact fun hc => ⟨hc.1, ne_minimal_mono hd hc.2⟩
  · exact fun hc => ⟨hc.1, ne_minimal_mono hd hc.2⟩
  · exact fun hc => ⟨hc.1, eq_full_mono hd hc.2⟩
  · exact fun hc => ⟨hc.1, eq_full_mono hd hc.2⟩

/-- The `ClothingDetails` rendering is monotone in the detail level. -/
lemma clothingFields_mono (c : ClothingDetails) {d1 d2 : DetailLevel}
    (hd : levelRank d1 ≤ levelRank d2) :
    clothingFields c d1 ⊆ clothingFields c d2 := by
  unfold clothingFields
  refine appendSub (appendSub (appendSub (appendSub (fIf_mono _ id)
    (fIf_mono _ ?_)) (fIf_mono _ ?_)) (fIf_mono _ ?_)) (fIf_mono _ ?_)
  · exact fun hc => ⟨hc.1, ne_minimal_mono hd hc.2⟩
  · exact fun hc =>
      ⟨hc.1, ne_minimal_mono hd hc.2.1, hc.2.2.1, eq_full_mono hd hc.2.2.2⟩
  · exact fun hc => ⟨hc.1, eq_full_mono hd hc.2⟩
  · exact fun hc => ⟨hc.1, eq_full_mono hd hc.2⟩

/-- The `BodyDetails` rendering is monotone in the detail level. -/
lemma bodyFields_mono (b : BodyDetails) {d1 d2 : DetailLevel}
    (hd : levelRank d1 ≤ levelRank d2) : bodyFields b d1 ⊆ bodyFields b d2 := by
  unfold bodyFields
  refine appendSub (appendSub (fIf_mono _ id) (fIf_mono _ ?_)) (fIf_mono _ ?_)
  · exact fun hc => ⟨hc.1, ne_minimal_mono hd hc.2⟩
  · exact fun hc => ⟨hc.1, eq_full_mono hd hc.2⟩

/-- The `HumanDetails` rendering is monotone in the detail level. -/
lemma humanFields_mono (h : HumanDetails) {d1 d2 : DetailLevel}
    (hd : levelRank d1 ≤ levelRank d2) : humanFields h d1 ⊆ humanFields h d2 := by
  unfold humanFields
  refine appendSub (appendSub (appendSub (appendSub (appendSub (appendSub
    (fIf_mono _ id) ?_) ?_) ?_) ?_) (fIf_mono _ ?_)) (fIf_mono _ ?_)
  · cases h.body with
    | none => exact List.Subset.refl _
    | some b => exact withPre_mono _ (bodyFields_mono b hd)
  · cases h.face with
    | none => exact List.Subset.refl _
    | some f => exact withPre_mono _ (faceFields_mono f hd)
  · cases h.hair with
    | none => exact List.Subset.refl _
    | some hr => exact withPre_mono _ (hairFields_mono hr hd)
  · cases h.clothing with
    | none => exact List.Subset.refl _
    | some c =>
      rcases Decidable.em (d1 = .minimal) with h1 | h1
      · simp [h1]
      · have h2 := ne_minimal_mono hd h1
        simp only [if_pos h1, if_pos h2]
        exact withPre_mono _ (clothingFields_mono c hd)
  · exact fun hc => ⟨hc.1, ne_minimal_mono hd hc.2⟩
  · exact fun hc => ⟨hc.1, eq_full_mono hd hc.2⟩

/-- The `AnimalDetails` rendering is monotone in the detail level. -/
lemma animalFields_mono (a : AnimalDetails) {d1 d2 : DetailLevel}
    (hd : levelRank d1 ≤ levelRank d2) :
    animalFields a d1 ⊆ animalFields a d2 := by
  unfold animalFields
  refine appendSub (appendSub (appendSub (appendSub (appendSub (appendSub
    (fIf_mono _ id) (fIf_mono _ id)) (fIf_mono _ id)) (fIf_mono _ ?_))
    (fIf_mono _ ?_)) (fIf_mono _ ?_)) (fIf_mono _ ?_)
  · exact fun hc => ⟨hc.1, ne_minimal_mono hd hc.2⟩
  · exact fun hc => ⟨hc.1, ne_minimal_mono hd hc.2⟩
  · exact fun hc => ⟨hc.1, eq_full_mono hd hc.2⟩
  · exact fun hc => ⟨hc.1, eq_full_mono hd hc.2⟩

/-- The `ObjectDetails` rendering is monotone in the detail level. -/
lemma objectFields_mono (o : ObjectDetails) {d1 d2 : DetailLevel}
    (hd : levelRank d1 ≤ levelRank d2) :
    objectFields o d1 ⊆ objectFields o d2 := by
  unfold objectFields
  refine appendSub (appendSub (appendSub (appendSub (appendSub (appendSub
    (fIf_mono _ id) (fIf_mono _ ?_)) (fIf_mono _ id)) (fIf_mono _ ?_))
    (fIf_mono _ ?_)) (fIf_mono _ ?_)) (fIf_mono _ ?_)
  · exact fun hc => ⟨hc.1, ne_minimal_mono hd hc.2⟩
  · exact fun hc => ⟨hc.1, ne_minimal_mono hd hc.2⟩
  · exact fun hc => ⟨hc.1, eq_full_mono hd hc.2⟩
  · exact fun hc => ⟨hc.1, eq_full_mono hd hc.2⟩
  · exact fun hc => ⟨hc.1, eq_full_mono hd hc.2⟩

/-- The `LightingDetails` rendering is monotone in the detail level. -/
lemma lightingFields_mono (l : LightingDetails) {d1 d2 : DetailLevel}
    (hd : levelRank d1 ≤ levelRank d2) :
    lightingFields l d1 ⊆ lightingFields l d2 := by
  unfold lightingFields
  refine appendSub (appendSub (appendSub (fIf_mono _ id) (fIf_mono _ ?_))
    (fIf_mono _ ?_)) (fIf_mono _ ?_)
  · exact fun hc => ⟨hc.1, ne_minimal_mono hd hc.2⟩
  · exact fun hc => ⟨hc.1, eq_full_mono hd hc.2⟩
  · exact fun hc => ⟨hc.1, eq_full_mono hd hc.2⟩

/-- The `EnvironmentSheet` rendering is monotone in the detail level. -/
lemma environmentFields_mono (e : EnvironmentSheet) {d1 d2 : DetailLevel}
    (hd : levelRank d1 ≤ levelRank d2) :
    environmentFields e d1 ⊆ environmentFields e d2 := by
  unfold environmentFields
  refine appendSub (appendSub (appendSub (appendSub (appendSub (appendSub
    (appendSub (fIf_mono _ id) (fIf_mono _ ?_)) (fIf_mono _ ?_))
    (fIf_mono _ id)) ?_) (fIf_mono _ ?_)) (fIf_mono _ ?_)) (fIf_mono _ ?_)
  · exact fun hc => ⟨hc.1, ne_minimal_mono hd hc.2⟩
  · exact fun hc => ⟨hc.1, ne_minimal_mono hd hc.2⟩
  · cases e.lighting with
    | none => exact List.Subset.refl _
    | some l => exact withPre_mono _ (lightingFields_mono l hd)
  · exact fun hc => ⟨hc.1, eq_full_mono hd hc.2⟩
  · exact fun hc => ⟨hc.1, eq_full_mono hd hc.2⟩
  · exact fun hc => ⟨hc.1, eq_full_mono hd hc.2⟩

/-- The `CameraDetails` rendering is monotone in the detail level. -/
lemma cameraFields_mono (c : CameraDetails) {d1 d2 : DetailLevel}
    (hd : levelRank d1 ≤ levelRank d2) :
    cameraFields c d1 ⊆ cameraFields c d2 := by
  unfold cameraFields
  refine appendSub (appendSub (fIf_mono _ id) (fIf_mono _ ?_)) (fIf_mono _ ?_)
  · exact fun hc => ⟨hc.1, ne_minimal_mono hd hc.2⟩
  · exact fun hc => ⟨hc.1, eq_full_mono hd hc.2⟩

/-- The `VisualStyle` rendering is monotone in the detail level. -/
lemma styleFields_mono (v : VisualStyle) {d1 d2 : DetailLevel}
    (hd : levelRank d1 ≤ levelRank d2) : styleFields v d1 ⊆ styleFields v d2 := by
  unfold styleFields
  refine appendSub (appendSub (appendSub (appendSub (appendSub
    (fIf_mono _ id) (fIf_mono _ ?_)) (fIf_mono _ id)) (fIf_mono _ ?_)) ?_)
    (fIf_mono _ ?_)
  · exact fun hc => ⟨hc.1, ne_minimal_mono hd hc.2⟩
  · exact fun hc => ⟨hc.1, ne_minimal_mono hd hc.2⟩
  · cases v.camera with
    | none => exact List.Subset.refl _
    | some c => exact withPre_mono _ (cameraFields_mono c hd)
  · exact fun hc => ⟨hc.1, eq_full_mono hd hc.2⟩

/-- The body of `SubjectSheet` rendering is monotone in the detail level. -/
lemma subjectFieldsMain_mono (s : SubjectSheet) {d1 d2 : DetailLevel}
    (hd : levelRank d1 ≤ levelRank d2) :
    subjectFieldsMain s d1 ⊆ subjectFieldsMain s d2 := by
  unfold subjectFieldsMain
  refine appendSub (appendSub (fIf_mono _ ?_) ?_) (fIf_mono _ ?_)
  · exact fun hc => ⟨hc.1, eq_full_mono hd hc.2⟩
  · cases s.subject_type <;> simp only [reduceCtorEq, if_true, if_false]
    · cases s.human_details with
      | none => exact List.Subset.refl _
      | some h => exact withPre_mono _ (humanFields_mono h hd)
    · cases s.animal_details with
      | none => exact List.Subset.refl _
      | some a => exact withPre_mono _ (animalFields_mono a hd)
    · cases s.object_details with
      | none => exact List.Subset.refl _
      | some o => exact withPre_mono _ (objectFields_mono o hd)
  · exact fun hc => ⟨hc.1, eq_full_mono hd hc.2⟩

/-! ## Length lemmas for the compression pipeline -/

/-- Dropping from the right never lengthens a string. -/
lemma length_dropRightWhile_le (p : Char → Bool) (s : PyStr) :
    (dropRightWhile p s).length ≤ s.length := by
  unfold dropRightWhile
  calc (s.reverse.dropWhile p).reverse.length
      = (s.reverse.dropWhile p).length := List.length_reverse _
    _ ≤ s.reverse.length := (List.dropWhile_sublist p).length_le
    _ = s.length := List.length_reverse _

/-- The `strip` never lengthens a string. -/
lemma pyStrip_length_le (s : PyStr) : (pyStrip s).length ≤ s.length := by
  unfold pyStrip pyRStrip pyLStrip
  exact (length_dropRightWhile_le _ _).trans (List.dropWhile_sublist _).length_le

/-- The final `strip().rstrip(",").strip()` of strategy 4 never lengthens. -/
lemma stripChain_length_le (s : PyStr) :
    (pyStrip (pyRStripComma (pyStrip s))).length ≤ s.length :=
  (pyStrip_length_le _).trans
    ((length_dropRightWhile_le _ _).trans (pyStrip_length_le _))

/-- The result of `rfindAux` is below the end index of the scanned string. -/
lemma rfindAux_lt (tgt : Char) :
    ∀ (l : PyStr) (i : Nat) (acc : Int), acc < i →
      rfindAux tgt l i acc < (i : Int) + l.length := by
  intro l
  induction l with
  | nil =>
    intro i acc h
    simpa [rfindAux] using h
  | cons c r ih =>
    intro i acc h
    have hacc : (if c = tgt then (i : Int) else acc) < (i + 1 : Nat) := by
      split <;> push_cast <;> omega
    have := ih (i + 1) _ hacc
    simp only [rfindAux, List.length_cons]
    push_cast at this ⊢
    omega

/-- The `rfind` returns an index strictly below the string length (or `-1`). -/
lemma pyRFind_lt (tgt : Char) (s : PyStr) : pyRFind tgt s < (s.length : Int) := by
  have := rfindAux_lt tgt s 0 (-1) (by norm_num)
  simpa [pyRFind] using this

/-- Strategy 4 always lands within the target. -/
lemma truncateAtBoundary_length_le (p : PyStr) (T : Nat) :
    (truncateAtBoundary p T).length ≤ T := by
  have htrunclen : (p.take T).length ≤ T := List.length_take_le _ _
  have hcut : max (pyRFind ',' (p.take T)) (pyRFind '.' (p.take T)) < (T : Int) :=
    max_lt ((pyRFind_lt _ _).trans_le (by exact_mod_cast htrunclen))
      ((pyRFind_lt _ _).trans_le (by exact_mod_cast htrunclen))
  have hcutT : (max (pyRFind ',' (p.take T)) (pyRFind '.' (p.take T))).toNat ≤ T :=
    Int.toNat_le.mpr hcut.le
  have hspace : pyRFind ' ' (p.take T) < (T : Int) :=
    (pyRFind_lt _ _).trans_le (by exact_mod_cast htrunclen)
  have hspaceT : (pyRFind ' ' (p.take T)).toNat ≤ T := Int.toNat_le.mpr hspace.le
  simp only [truncateAtBoundary]
  refine (stripChain_length_le _).trans ?_
  split
  · exact (pyStrip_length_le _).trans ((List.length_take_le _ _).trans hcutT)
  · split
    · exact (List.length_take_le _ _).trans hspaceT
    · exact htrunclen

/-- The compression pipeline always returns a string within the target:
short inputs are returned unchanged (and are already within), and every
later early return or fall-through is guarded by the target. -/
lemma compressForWan_length_le (p : PyStr) (T : Nat) :
    (compressForWan p T).length ≤ T := by
  simp only [compressForWan]
  split
  · assumption
  · split
    · assumption
    · split
      · assumption
      · split
        · assumption
        · exact truncateAtBoundary_length_le _ _

/-! ## C2: compression respects its target -/

/-- C2: for every string `S` and target length `T`, `_compress_for_wan(S, T)`
returns `S` unchanged (no normalization) when `len(S) <= T`, and a string of
length at most `T` when `len(S) > T`; as a total Lean function it never
raises. -/
theorem spec_compress_respects_target (S : PyStr) (T : Nat) :
    (S.length ≤ T → compressForWan S T = S) ∧
    (T < S.length → (compressForWan S T).length ≤ T) := by
  constructor
  · intro h
    unfold compressForWan
    simp [h]
  · intro _
    exact compressForWan_length_le S T

/-- Witness for C2: a short string is returned byte-identically (even though
it contains normalizable whitespace), and an over-budget string is compressed
to within the target. -/
theorem spec_compress_respects_target_witness :
    compressForWan (("a  ,b").toList) 5 = ("a  ,b").toList ∧
      (compressForWan (("a, b, c, d").toList) 5).length ≤ 5 :=
  ⟨(spec_compress_respects_target (("a  ,b").toList) 5).1 (by decide),
   (spec_compress_respects_target (("a, b, c, d").toList) 5).2 (by decide)⟩

/-! ## C1: video prompt cap invariant -/

/-- C1: for every consistency state and every combination of arguments,
`assemble_video_segment_prompt` returns (does not raise) a string of length
at most 800, provided a state has been set on the assembler. -/
theorem spec_video_prompt_cap (a : PromptAssembler)
    (st : VideoConsistencyState) (subjectIds : List PyStr)
    (envId action camera motionHint : Option PyStr)
    (h : a.state = some st) :
    ∃ prompt,
      assembleVideoSegmentPrompt a subjectIds envId action camera motionHint =
        .ok prompt ∧ prompt.length ≤ 800 := by
  refine ⟨assembleVideoSegmentCore st subjectIds envId action camera motionHint,
    ?_, ?_⟩
  · simp [assembleVideoSegmentPrompt, h]
  · exact compressForWan_length_le _ _

/-- Witness for C1 at a concrete assembler, state and argument list. -/
theorem spec_video_prompt_cap_witness :
    ∃ prompt,
      assembleVideoSegmentPrompt ⟨some sampleStateC1⟩ [("subj-1").toList]
        none (some (("walking").toList)) none none = .ok prompt ∧
        prompt.length ≤ 800 :=
  spec_video_prompt_cap ⟨some sampleStateC1⟩ sampleStateC1 [("subj-1").toList]
    none (some (("walking").toList)) none none rfl

/-! ## C5: a failed save returns False and leaves the dirty flag, but has
already incremented the version -/

/-- Counterexample for C5: on a storage exception, `save()` does return
`False` and leaves the dirty flag, but the in-memory version counter HAS
been incremented (from 5 to 6) - the increment happens before the
persistence attempt, so it is not true that the version is only incremented
on persisted saves. -/
theorem spec_save_failure_counterexample :
    (failingSaveMgr.save 7).1 = false ∧
      (failingSaveMgr.save 7).2.dirty = failingSaveMgr.dirty ∧
      mgrVersion failingSaveMgr = some 5 ∧
      mgrVersion (failingSaveMgr.save 7).2 = some 6 := by
  refine ⟨rfl, rfl, rfl, rfl⟩

/-- C5 (amended): when the storage collaborator raises during `save()`, the
call returns `False` and the dirty flag is unchanged, and the state's
subjects, environment, style and ids are unchanged - but `version` has
already been incremented (and `updated_at` refreshed) by the time the
exception is caught, because the increment precedes the persistence call. -/
theorem spec_save_failure (m : ConsistencyManager) (db : DbModule)
    (st : VideoConsistencyState) (now : PyDateTime)
    (hdb : m.db = some db) (hst : m.state = some st)
    (hraises : db.save_raises = true) :
    (m.save now).1 = false ∧
      (m.save now).2.dirty = m.dirty ∧
      (m.save now).2.state =
        some { st with updated_at := now, version := st.version + 1 } := by
  unfold ConsistencyManager.save
  rw [hdb, hst]
  simp [hraises]

/-- Witness for C5 (amended) at the concrete failing manager. -/
theorem spec_save_failure_witness :
    (failingSaveMgr.save 7).1 = false ∧
      (failingSaveMgr.save 7).2.dirty = failingSaveMgr.dirty ∧
      (failingSaveMgr.save 7).2.state =
        some { (⟨("state-5").toList, ("sess-5").toList, [], none, none, none,
          none, 5, 0, 0⟩ : VideoConsistencyState) with
          updated_at := 7, version := 5 + 1 } :=
  spec_save_failure failingSaveMgr ⟨true⟩
    ⟨("state-5").toList, ("sess-5").toList, [], none, none, none, none, 5, 0, 0⟩
    7 rfl rfl rfl

/-! ## C6: assembler methods without a state -/

/-- Counterexample for C6: `estimate_prompt_length` is an Assembler method
that does NOT raise when no state is attached - it silently returns the
all-zero breakdown dict (its early return at assembler.py lines 417-418),
refuting the claim that every Assembler method raises before a state is
set. -/
theorem spec_no_state_counterexample :
    estimatePromptLength detachedAssembler [("subj-1").toList]
      (some (("env-1").toList)) (some (("waving").toList))
      (some (("close-up").toList)) .keyframe = zeroEstimates := by
  rfl

/-- C6 (amended): the three assembly methods (`assemble_keyframe_prompt`,
`assemble_video_segment_prompt`, `assemble_reference_prompt`) all raise an
explicit usage error when no state is attached, but `estimate_prompt_length`
instead silently returns the all-zero breakdown. -/
theorem spec_no_state_raises (subjectIds : List PyStr)
    (envId action camera motionHint pose : Option PyStr)
    (fg : Option (List PyStr)) (provider : Provider) (sid background : PyStr)
    (ptype : PromptType) :
    assembleKeyframePrompt detachedAssembler subjectIds envId action camera fg
        provider = .error noStateMsg ∧
      assembleVideoSegmentPrompt detachedAssembler subjectIds envId action
        camera motionHint = .error noStateMsg ∧
      assembleReferencePrompt detachedAssembler sid pose background =
        .error noStateMsg ∧
      estimatePromptLength detachedAssembler subjectIds envId action camera
        ptype = zeroEstimates :=
  ⟨rfl, rfl, rfl, rfl⟩

/-! ## C3: detail-level monotonicity -/

/-- Rendering `subjectFields` at `medium` never enters the minimal
short-circuit. -/
lemma subjectFields_medium (s : SubjectSheet) :
    subjectFields s .medium = subjectFieldsMain s .medium := by
  unfold subjectFields
  cases s.description <;> rfl

/-- Rendering `subjectFields` at `full` never enters the minimal
short-circuit. -/
lemma subjectFields_full (s : SubjectSheet) :
    subjectFields s .full = subjectFieldsMain s .full := by
  unfold subjectFields
  cases s.description <;> rfl

/-- C3 (amended): the rendered-field sets of every detail bundle and sheet
type (hair, face, clothing, body, human, animal, object, lighting,
environment, camera, style) are monotone across detail levels (`minimal ⊆
medium ⊆ full`).  For a `SubjectSheet`, `medium ⊆ full` and `minimal ⊆ full`
always hold, and `minimal ⊆ medium` holds whenever no `description` override
is set; with a `description` override the claim fails (see the
counterexample), because the description renders at `minimal` and `full` but
not at `medium`. -/
theorem spec_detail_level_monotonicity :
    (∀ h : HairDetails,
        hairFields h .minimal ⊆ hairFields h .medium ∧
        hairFields h .medium ⊆ hairFields h .full) ∧
    (∀ f : FaceDetails,
        faceFields f .minimal ⊆ faceFields f .medium ∧
        faceFields f .medium ⊆ faceFields f .full) ∧
    (∀ c : ClothingDetails,
        clothingFields c .minimal ⊆ clothingFields c .medium ∧
        clothingFields c .medium ⊆ clothingFields c .full) ∧
    (∀ b : BodyDetails,
        bodyFields b .minimal ⊆ bodyFields b .medium ∧
        bodyFields b .medium ⊆ bodyFields b .full) ∧
    (∀ h : HumanDetails,
        humanFields h .minimal ⊆ humanFields h .medium ∧
        humanFields h .medium ⊆ humanFields h .full) ∧
    (∀ a : AnimalDetails,
        animalFields a .minimal ⊆ animalFields a .medium ∧
        animalFields a .medium ⊆ animalFields a .full) ∧
    (∀ o : ObjectDetails,
        objectFields o .minimal ⊆ objectFields o .medium ∧
        objectFields o .medium ⊆ objectFields o .full) ∧
    (∀ l : LightingDetails,
        lightingFields l .minimal ⊆ lightingFields l .medium ∧
        lightingFields l .medium ⊆ lightingFields l .full) ∧
    (∀ e : EnvironmentSheet,
        environmentFields e .minimal ⊆ environmentFields e .medium ∧
        environmentFields e .medium ⊆ environmentFields e .full) ∧
    (∀ c : CameraDetails,
        cameraFields c .minimal ⊆ cameraFields c .medium ∧
        cameraFields c .medium ⊆ cameraFields c .full) ∧
    (∀ v : VisualStyle,
        styleFields v .minimal ⊆ styleFields v .medium ∧
        styleFields v .medium ⊆ styleFields v .full) ∧
    (∀ s : SubjectSheet,
        subjectFields s .medium ⊆ subjectFields s .full ∧
        subjectFields s .minimal ⊆ subjectFields s .full ∧
        (s.description = none →
          subjectFields s .minimal ⊆ subjectFields s .medium)) := by
  refine ⟨fun h => ⟨hairFields_mono h (by decide), hairFields_mono h (by decide)⟩,
    fun f => ⟨faceFields_mono f (by decide), faceFields_mono f (by decide)⟩,
    fun c => ⟨clothingFields_mono c (by decide), clothingFields_mono c (by decide)⟩,
    fun b => ⟨bodyFields_mono b (by decide), bodyFields_mono b (by decide)⟩,
    fun h => ⟨humanFields_mono h (by decide), humanFields_mono h (by decide)⟩,
    fun a => ⟨animalFields_mono a (by decide), animalFields_mono a (by decide)⟩,
    fun o => ⟨objectFields_mono o (by decide), objectFields_mono o (by decide)⟩,
    fun l => ⟨lightingFields_mono l (by decide), lightingFields_mono l (by decide)⟩,
    fun e => ⟨environmentFields_mono e (by decide), environmentFields_mono e (by decide)⟩,
    fun c => ⟨cameraFields_mono c (by decide), cameraFields_mono c (by decide)⟩,
    fun v => ⟨styleFields_mono v (by decide), styleFields_mono v (by decide)⟩,
    fun s => ⟨?_, ?_, ?_⟩⟩
  · rw [subjectFields_medium, subjectFields_full]
    exact subjectFieldsMain_mono s (by decide)
  · cases hdesc : s.description with
    | none =>
      have e1 : subjectFields s .minimal = subjectFieldsMain s .minimal := by
        unfold subjectFields
        rw [hdesc]
      rw [e1, subjectFields_full]
      exact subjectFieldsMain_mono s (by decide)
    | some a =>
      have e1 : subjectFields s .minimal = [("description")] := by
        unfold subjectFields
        rw [hdesc]
      have hmem : ("description") ∈ subjectFieldsMain s .full := by
        unfold subjectFieldsMain
        refine List.mem_append.mpr (Or.inr ?_)
        simp [fIf, hdesc]
      intro x hx
      rw [e1] at hx
      rw [List.mem_singleton.mp hx, subjectFields_full]
      exact hmem
  · intro hdesc
    have e1 : subjectFields s .minimal = subjectFieldsMain s .minimal := by
      unfold subjectFields
      rw [hdesc]
    rw [e1, subjectFields_medium]
    exact subjectFieldsMain_mono s (by decide)

/-- Counterexample for C3: with a description override set, the field set
rendered at `minimal` (the description) is NOT a subset of the field set
rendered at `medium` (which omits the description), so the chain
`minimal ⊆ medium ⊆ full` fails for a `SubjectSheet` with an override. -/
theorem spec_detail_level_monotonicity_counterexample :
    ("description") ∈ subjectFields overrideSubjectC3 .minimal ∧
      ¬ subjectFields overrideSubjectC3 .minimal ⊆
          subjectFields overrideSubjectC3 .medium :=
  ⟨by decide, fun h => absurd (@h ("description") (by decide)) (by decide)⟩

/-- Witness for C3 (amended), applied at a human subject without a
description override. -/
theorem spec_detail_level_monotonicity_witness :
    subjectFields plainSubjectC3 .minimal ⊆ subjectFields plainSubjectC3 .medium :=
  (spec_detail_level_monotonicity.2.2.2.2.2.2.2.2.2.2.2 plainSubjectC3).2.2 rfl

/-! ## C4: estimate_prompt_length detail levels and separator overhead -/

/-- Counterexample for C4: for `prompt_type == "video"`,
`estimate_prompt_length` renders the style at `medium` (24 characters here),
while `assemble_video_segment_prompt` renders the style block at `minimal`
(9 characters here; with no other components the assembled prompt IS that
block) - so the estimate does not use the detail level the corresponding
assembly method would use. -/
theorem spec_estimate_levels_counterexample :
    (estimatePromptLength ⟨some styleStateC4⟩ [] none none none .video).style = 24 ∧
      (getStyleBlock styleStateC4 .minimal).length = 9 ∧
      assembleVideoSegmentCore styleStateC4 [] none none none none =
        getStyleBlock styleStateC4 .minimal ∧
      (24 : Nat) ≠ 9 :=
  ⟨by decide, by decide, by decide, by decide⟩

/-- C4 (amended): `estimate_prompt_length` is a pure function of the
assembler and its arguments; for `keyframe` it renders the style and every
requested subject at `full` - the levels `assemble_keyframe_prompt` uses
when `foreground_subjects` defaults to all requested ids - while for
`video` it renders the style at `medium` (the video assembly uses `minimal`)
and counts every requested subject at `medium` (the video assembly renders
only the first); its total adds separator overhead of 2 characters per join
point between non-zero components. -/
theorem spec_estimate_detail_levels (a : PromptAssembler)
    (st : VideoConsistencyState) (sids : List PyStr)
    (envId action camera : Option PyStr) (h : a.state = some st) :
    (estimatePromptLength a sids envId action camera .keyframe).style =
        (getStyleBlock st .full).length ∧
      (estimatePromptLength a sids envId action camera .keyframe).subjects =
        (sids.map (fun sid =>
          match getSubjectIn st sid with
          | none => 0
          | some sheet => (sheet.toPromptBlock .full).length)).sum ∧
      (estimatePromptLength a sids envId action camera .video).style =
        (getStyleBlock st .medium).length ∧
      (estimatePromptLength a sids envId action camera .video).subjects =
        (sids.map (fun sid =>
          match getSubjectIn st sid with
          | none => 0
          | some sheet => (sheet.toPromptBlock .medium).length)).sum ∧
      (∀ pt : PromptType,
        (estimatePromptLength a sids envId action camera pt).total =
          (estimatePromptLength a sids envId action camera pt).style +
          (estimatePromptLength a sids envId action camera pt).subjects +
          (estimatePromptLength a sids envId action camera pt).action +
          (estimatePromptLength a sids envId action camera pt).environment +
          (estimatePromptLength a sids envId action camera pt).camera +
          (([(estimatePromptLength a sids envId action camera pt).style,
             (estimatePromptLength a sids envId action camera pt).subjects,
             (estimatePromptLength a sids envId action camera pt).action,
             (estimatePromptLength a sids envId action camera pt).environment,
             (estimatePromptLength a sids envId action camera pt).camera].countP
            (fun v => decide (0 < v))) - 1) * 2) := by
  refine ⟨?_, ?_, ?_, ?_, ?_⟩
  · simp only [estimatePromptLength, h]
    cases hsty : st.style <;> simp [getStyleBlock, hsty]
  · simp only [estimatePromptLength, h]
    simp
  · simp only [estimatePromptLength, h]
    cases hsty : st.style <;> simp [getStyleBlock, hsty]
  · simp only [estimatePromptLength, h]
    simp
  · intro pt
    simp only [estimatePromptLength, h]
    simp only [List.sum_cons, List.sum_nil]
    omega

/-- Witness for C4 (amended) at a concrete assembler and argument list. -/
theorem spec_estimate_detail_levels_witness :
    (estimatePromptLength ⟨some styleStateC4⟩ [] none none none .video).style =
      (getStyleBlock styleStateC4 .medium).length :=
  (spec_estimate_detail_levels ⟨some styleStateC4⟩ styleStateC4 [] none none
    none rfl).2.2.1

/-! ## C7: serialization round-trip with session re-pinning -/

/-- Validating a dumped optional field recovers it. -/
lemma vOpt_dump {α β : Type} (f : β → Option α) (g : α → β)
    (hfg : ∀ a, f (g a) = some a) (o : Option α) :
    vOpt f (o.map g) = some o := by
  cases o <;> simp [vOpt, hfg]

/-- Validating a dumped list field recovers it. -/
lemma vList_dump {α β : Type} (f : β → Option α) (g : α → β)
    (hfg : ∀ a, f (g a) = some a) (l : List α) :
    vList f (l.map g) = some l := by
  induction l with
  | nil => rfl
  | cons x xs ih => simp [vList, hfg, ih]

/-- The `Attribute` round-trips through its json dump. -/
lemma validate_dump_attribute (a : Attribute) :
    validateAttribute (dumpAttribute a) = some a := by
  cases a with
  | mk v c t => cases c <;> rfl

/-- The `SubjectType` round-trips through its string tag. -/
lemma parse_dump_subjectType (t : SubjectType) :
    parseSubjectType (subjectTypeStr t) = some t := by
  cases t <;> rfl

/-- The `HairDetails` round-trips. -/
lemma validate_dump_hair (h : HairDetails) :
    validateHair (dumpHair h) = some h := by
  cases h
  simp [dumpHair, validateHair,
    vOpt_dump validateAttribute dumpAttribute validate_dump_attribute]

/-- The `FaceDetails` round-trips. -/
lemma validate_dump_face (f : FaceDetails) :
    validateFace (dumpFace f) = some f := by
  cases f
  simp [dumpFace, validateFace,
    vOpt_dump validateAttribute dumpAttribute validate_dump_attribute]

/-- The `ClothingDetails` round-trips. -/
lemma validate_dump_clothing (c : ClothingDetails) :
    validateClothing (dumpClothing c) = some c := by
  cases c
  simp [dumpClothing, validateClothing,
    vOpt_dump validateAttribute dumpAttribute validate_dump_attribute]

/-- The `BodyDetails` round-trips. -/
lemma validate_dump_body (b : BodyDetails) :
    validateBody (dumpBody b) = some b := by
  cases b
  simp [dumpBody, validateBody,
    vOpt_dump validateAttribute dumpAttribute validate_dump_attribute]

/-- The `HumanDetails` round-trips. -/
lemma validate_dump_human (h : HumanDetails) :
    validateHuman (dumpHuman h) = some h := by
  cases h
  simp [dumpHuman, validateHuman,
    vOpt_dump validateAttribute dumpAttribute validate_dump_attribute,
    vOpt_dump validateHair dumpHair validate_dump_hair,
    vOpt_dump validateFace dumpFace validate_dump_face,
    vOpt_dump validateBody dumpBody validate_dump_body,
    vOpt_dump validateClothing dumpClothing validate_dump_clothing]

/-- The `AnimalDetails` round-trips. -/
lemma validate_dump_animal (a : AnimalDetails) :
    validateAnimal (dumpAnimal a) = some a := by
  cases a
  simp [dumpAnimal, validateAnimal,
    vOpt_dump validateAttribute dumpAttribute validate_dump_attribute]

/-- The `ObjectDetails` round-trips. -/
lemma validate_dump_object (o : ObjectDetails) :
    validateObject (dumpObject o) = some o := by
  cases o
  simp [dumpObject, validateObject,
    vOpt_dump validateAttribute dumpAttribute validate_dump_attribute]

/-- The `SubjectSheet` round-trips. -/
lemma validate_dump_subject (s : SubjectSheet) :
    validateSubject (dumpSubject s) = some s := by
  cases s
  simp [dumpSubject, validateSubject, parse_dump_subjectType,
    vOpt_dump validateAttribute dumpAttribute validate_dump_attribute,
    vOpt_dump validateHuman dumpHuman validate_dump_human,
    vOpt_dump validateAnimal dumpAnimal validate_dump_animal,
    vOpt_dump validateObject dumpObject validate_dump_object]

/-- The `LightingDetails` round-trips. -/
lemma validate_dump_lighting (l : LightingDetails) :
    validateLighting (dumpLighting l) = some l := by
  cases l
  simp [dumpLighting, validateLighting,
    vOpt_dump validateAttribute dumpAttribute validate_dump_attribute]

/-- The `EnvironmentSheet` round-trips. -/
lemma validate_dump_environment (e : EnvironmentSheet) :
    validateEnvironment (dumpEnvironment e) = some e := by
  cases e
  simp [dumpEnvironment, validateEnvironment,
    vOpt_dump validateAttribute dumpAttribute validate_dump_attribute,
    vOpt_dump validateLighting dumpLighting validate_dump_lighting]

/-- The `CameraDetails` round-trips. -/
lemma validate_dump_camera (c : CameraDetails) :
    validateCamera (dumpCamera c) = some c := by
  cases c
  simp [dumpCamera, validateCamera,
    vOpt_dump validateAttribute dumpAttribute validate_dump_attribute]

/-- The `VisualStyle` round-trips. -/
lemma validate_dump_style (v : VisualStyle) :
    validateStyle (dumpStyle v) = some v := by
  cases v
  simp [dumpStyle, validateStyle,
    vOpt_dump validateAttribute dumpAttribute validate_dump_attribute,
    vOpt_dump validateCamera dumpCamera validate_dump_camera]

/-- The `VideoConsistencyState` round-trips. -/
lemma validate_dump_state (st : VideoConsistencyState) :
    validateState (dumpState st) = some st := by
  cases st
  simp [dumpState, validateState,
    vList_dump validateSubject dumpSubject validate_dump_subject,
    vOpt_dump validateEnvironment dumpEnvironment validate_dump_environment,
    vOpt_dump validateStyle dumpStyle validate_dump_style]

/-- C7: for every manager whose state has been loaded,
`from_dict(to_dict())` succeeds and reproduces an equivalent state - same
subjects, environment, style, ids, attribute values and confidences - except
that `session_id` is re-pinned to the importing manager's own session id;
moreover `from_dict` re-pins the session id for ANY blob that validates,
even when the serialized `session_id` disagrees. -/
theorem spec_roundtrip_repins_session (m : ConsistencyManager)
    (s : VideoConsistencyState) (h : m.state = some s) :
    (∃ d, m.toDict = some d ∧
      m.fromDict d =
        (true, { m with state := some (repinned m s), dirty := true })) ∧
      (∀ (d : StateDump) (st' : VideoConsistencyState),
        validateState d = some st' →
          (m.fromDict d).2.state = some (repinned m st')) := by
  constructor
  · refine ⟨dumpState s, ?_, ?_⟩
    · simp [ConsistencyManager.toDict, h]
    · unfold ConsistencyManager.fromDict
      rw [validate_dump_state]
      simp [repinned]
  · intro d st' hv
    unfold ConsistencyManager.fromDict
    rw [hv]
    simp [repinned]

/-- Witness for C7 at the concrete loaded manager: importing the dump of its
own rich state (recorded under a different session id) yields the same state
re-pinned to the manager's session. -/
theorem spec_roundtrip_repins_session_witness :
    (richMgrC7.fromDict (dumpState richStateC7)).2.state =
      some (repinned richMgrC7 richStateC7) :=
  (spec_roundtrip_repins_session richMgrC7 richStateC7 rfl).2
    (dumpState richStateC7) richStateC7 (validate_dump_state richStateC7)

/-! ## C9: foreground subjects render full, background minimal -/

/-- Every member of a joined part list occurs contiguously in the join. -/
lemma infixOf_joinWith (sep : PyStr) {x : PyStr} :
    ∀ {l : List PyStr}, x ∈ l → infixOf x (joinWith sep l) := by
  intro l
  induction l with
  | nil => intro h; cases h
  | cons a rest ih =>
    intro hx
    cases rest with
    | nil =>
      have hxa : x = a := by simpa using hx
      exact ⟨[], [], by simp [joinWith, hxa]⟩
    | cons b t =>
      rcases List.mem_cons.mp hx with rfl | hx2
      · exact ⟨[], sep ++ joinWith sep (b :: t), by simp [joinWith]⟩
      · rcases ih hx2 with ⟨s, u, hs⟩
        exact ⟨a ++ sep ++ s, u, by
          simp only [joinWith, List.append_assoc]
          simp [List.append_assoc] at hs ⊢
          exact hs⟩

/-- C9: in `assemble_keyframe_prompt`, every requested subject that is found
in the state renders at `full` when it is in `foreground_subjects` (which
defaults to all requested ids when absent or empty) and at `minimal`
otherwise, its non-empty block occurring contiguously in the output;
concretely, with two subjects of which only the first is foregrounded, the
foreground subject's full-detail clothing value appears in the output while
the background subject's does not. -/
theorem spec_keyframe_foreground_detail :
    (∀ (st : VideoConsistencyState) (sids : List PyStr)
       (envId action camera : Option PyStr) (fg : Option (List PyStr))
       (sid : PyStr) (sheet : SubjectSheet),
       getSubjectIn st sid = some sheet → sid ∈ sids →
       let fgs := match fg with
         | none => sids
         | some l => if l.isEmpty then sids else l
       let d := if fgs.contains sid then DetailLevel.full else .minimal
       let b := sheet.toPromptBlock d
       ¬b.isEmpty →
       infixOf b
         (assembleKeyframeCore st sids envId action camera fg .imagen3)) ∧
      containsSub (("navy jacket").toList)
        (assembleKeyframeCore twoSubjectStateC9
          [("subj-a").toList, ("subj-b").toList] none none none
          (some [("subj-a").toList]) .imagen3) = true ∧
      containsSub (("red sweater").toList)
        (assembleKeyframeCore twoSubjectStateC9
          [("subj-a").toList, ("subj-b").toList] none none none
          (some [("subj-a").toList]) .imagen3) = false := by
  refine ⟨?_, by decide, by decide⟩
  intro st sids envId action camera fg sid sheet hfind hmem
  intro fgs d b hb
  simp only [assembleKeyframeCore, joinNonEmpty, reduceCtorEq, if_false]
  refine infixOf_joinWith _ (List.mem_filter.mpr ⟨?_, by simpa using hb⟩)
  refine List.mem_append_left _ (List.mem_append_left _
    (List.mem_append_left _ (List.mem_append_right _ ?_)))
  refine List.mem_flatMap.mpr ⟨sid, hmem, ?_⟩
  rw [hfind]
  show b ∈ if b.isEmpty then [] else [b]
  rw [if_neg (by simpa using hb)]
  exact List.mem_singleton.mpr rfl

/-- Witness for C9, applying the universal clause at the concrete
foregrounded subject of the two-subject scenario state. -/
theorem spec_keyframe_foreground_detail_witness :
    infixOf (fgSubjectC9.toPromptBlock .full)
      (assembleKeyframeCore twoSubjectStateC9
        [("subj-a").toList, ("subj-b").toList] none none none
        (some [("subj-a").toList]) .imagen3) :=
  spec_keyframe_foreground_detail.1 twoSubjectStateC9
    [("subj-a").toList, ("subj-b").toList] none none none
    (some [("subj-a").toList]) (("subj-a").toList) fgSubjectC9
    (by decide) (by decide) (by decide)

/-! ## C10: nested-bundle keywords corrupt human details -/

/-- A stray attribute in the `body` slot makes rendering raise. -/
lemma humanDyn_stray_body (h : HumanDetailsDyn) (a : Attribute)
    (d : DetailLevel) (hh : h.body = some (.stray a)) :
    h.toPromptBlock d = .error () := by
  simp [HumanDetailsDyn.toPromptBlock, hh, bind, Except.bind, throw, throwThe, MonadExceptOf.throw, Functor.map, Except.map, pure, Except.pure]

/-- A stray attribute in the `face` slot makes rendering raise. -/
lemma humanDyn_stray_face (h : HumanDetailsDyn) (a : Attribute)
    (d : DetailLevel) (hh : h.face = some (.stray a)) :
    h.toPromptBlock d = .error () := by
  rcases hb : h.body with _ | slot
  · simp [HumanDetailsDyn.toPromptBlock, hb, hh, bind, Except.bind, throw, throwThe, MonadExceptOf.throw, Functor.map, Except.map, pure, Except.pure]
  · rcases slot with x | y
    · simp [HumanDetailsDyn.toPromptBlock, hb, hh, bind, Except.bind, throw, throwThe, MonadExceptOf.throw, Functor.map, Except.map, pure, Except.pure]
    · simp [HumanDetailsDyn.toPromptBlock, hb, bind, Except.bind, throw, throwThe, MonadExceptOf.throw, Functor.map, Except.map, pure, Except.pure]

/-- A stray attribute in the `hair` slot makes rendering raise. -/
lemma humanDyn_stray_hair (h : HumanDetailsDyn) (a : Attribute)
    (d : DetailLevel) (hh : h.hair = some (.stray a)) :
    h.toPromptBlock d = .error () := by
  rcases hb : h.body with _ | ⟨x⟩ | b
  · rcases hf : h.face with _ | ⟨y⟩ | f
    · simp [HumanDetailsDyn.toPromptBlock, hb, hf, hh, bind, Except.bind, throw, throwThe, MonadExceptOf.throw, Functor.map, Except.map, pure, Except.pure]
    · simp [HumanDetailsDyn.toPromptBlock, hb, hf, hh, bind, Except.bind, throw, throwThe, MonadExceptOf.throw, Functor.map, Except.map, pure, Except.pure]
    · simp [HumanDetailsDyn.toPromptBlock, hb, hf, bind, Except.bind, throw, throwThe, MonadExceptOf.throw, Functor.map, Except.map, pure, Except.pure]
  · rcases hf : h.face with _ | ⟨y⟩ | f
    · simp [HumanDetailsDyn.toPromptBlock, hb, hf, hh, bind, Except.bind, throw, throwThe, MonadExceptOf.throw, Functor.map, Except.map, pure, Except.pure]
    · simp [HumanDetailsDyn.toPromptBlock, hb, hf, hh, bind, Except.bind, throw, throwThe, MonadExceptOf.throw, Functor.map, Except.map, pure, Except.pure]
    · simp [HumanDetailsDyn.toPromptBlock, hb, hf, bind, Except.bind, throw, throwThe, MonadExceptOf.throw, Functor.map, Except.map, pure, Except.pure]
  · simp [HumanDetailsDyn.toPromptBlock, hb, bind, Except.bind, throw, throwThe, MonadExceptOf.throw, Functor.map, Except.map, pure, Except.pure]

/-- A stray attribute in the `clothing` slot makes rendering raise at any
level that renders clothing (every level except `minimal`). -/
lemma humanDyn_stray_clothing (h : HumanDetailsDyn) (a : Attribute)
    (d : DetailLevel) (hd : d ≠ .minimal)
    (hh : h.clothing = some (.stray a)) :
    h.toPromptBlock d = .error () := by
  rcases hb : h.body with _ | ⟨x⟩ | b
  all_goals rcases hf : h.face with _ | ⟨y⟩ | f
  all_goals rcases hhr : h.hair with _ | ⟨z⟩ | r
  all_goals simp [HumanDetailsDyn.toPromptBlock, hb, hf, hhr, hh, hd, bind, Except.bind, throw, throwThe, MonadExceptOf.throw, Functor.map, Except.map, pure, Except.pure]

/-- A raising details bundle makes the subject render raise at `full` (the
short-circuit only exists at `minimal`). -/
lemma subjectDyn_details_raise (s : SubjectSheetDyn) (h : HumanDetailsDyn)
    (hs : s.human_details = some h) (he : h.toPromptBlock .full = .error ()) :
    s.toPromptBlock .full = .error () := by
  cases hdesc : s.description <;>
    simp [SubjectSheetDyn.toPromptBlock, hdesc, hs, he, bind, Except.bind,
      throw, throwThe, MonadExceptOf.throw, Functor.map, Except.map, pure,
      Except.pure]

/-- C10: on a human subject, `update_subject` with a keyword naming one of
the nested detail-bundle fields (`hair`, `face`, `body`, `clothing`) is not
an unknown-key no-op: the nested details slot is overwritten with a flat
`Attribute` wrapping the value, after which `to_prompt_block` on the subject
at `full` - a level that renders all four components - raises instead of
returning a string. -/
theorem spec_update_nested_bundle_key (s : SubjectSheetDyn)
    (hd : HumanDetailsDyn) (value : PyStr) (confidence : ConfidenceLevel)
    (turn : Option Int) (now : PyDateTime)
    (h : s.human_details = some hd) :
    ((updateSubjectDyn s ("hair") value confidence turn now).human_details =
        some { hd with hair := some (.stray ⟨value, confidence, turn⟩) } ∧
      (updateSubjectDyn s ("hair") value confidence turn now).toPromptBlock
        .full = .error ()) ∧
    ((updateSubjectDyn s ("face") value confidence turn now).human_details =
        some { hd with face := some (.stray ⟨value, confidence, turn⟩) } ∧
      (updateSubjectDyn s ("face") value confidence turn now).toPromptBlock
        .full = .error ()) ∧
    ((updateSubjectDyn s ("body") value confidence turn now).human_details =
        some { hd with body := some (.stray ⟨value, confidence, turn⟩) } ∧
      (updateSubjectDyn s ("body") value confidence turn now).toPromptBlock
        .full = .error ()) ∧
    ((updateSubjectDyn s ("clothing") value confidence turn now).human_details =
        some { hd with clothing := some (.stray ⟨value, confidence, turn⟩) } ∧
      (updateSubjectDyn s ("clothing") value confidence turn now).toPromptBlock
        .full = .error ()) := by
  have hhair :
      (updateSubjectDyn s ("hair") value confidence turn now).human_details =
        some { hd with hair := some (.stray ⟨value, confidence, turn⟩) } := by
    unfold updateSubjectDyn
    rw [h]
    rfl
  have hface :
      (updateSubjectDyn s ("face") value confidence turn now).human_details =
        some { hd with face := some (.stray ⟨value, confidence, turn⟩) } := by
    unfold updateSubjectDyn
    rw [h]
    rfl
  have hbody :
      (updateSubjectDyn s ("body") value confidence turn now).human_details =
        some { hd with body := some (.stray ⟨value, confidence, turn⟩) } := by
    unfold updateSubjectDyn
    rw [h]
    rfl
  have hcloth :
      (updateSubjectDyn s ("clothing") value confidence turn now).human_details =
        some { hd with clothing := some (.stray ⟨value, confidence, turn⟩) } := by
    unfold updateSubjectDyn
    rw [h]
    rfl
  refine ⟨⟨hhair, ?_⟩, ⟨hface, ?_⟩, ⟨hbody, ?_⟩, ⟨hcloth, ?_⟩⟩
  · exact subjectDyn_details_raise _ _ hhair (humanDyn_stray_hair _ _ _ rfl)
  · exact subjectDyn_details_raise _ _ hface (humanDyn_stray_face _ _ _ rfl)
  · exact subjectDyn_details_raise _ _ hbody (humanDyn_stray_body _ _ _ rfl)
  · exact subjectDyn_details_raise _ _ hcloth
      (humanDyn_stray_clothing _ _ _ (by decide) rfl)

/-- Witness for C10 at a concrete human subject updated with
`hair="short bob"`. -/
theorem spec_update_nested_bundle_key_witness :
    (updateSubjectDyn dynSubjectC10 ("hair") (("short bob").toList) .inferred
        (some 4) 9).human_details =
      some { (⟨some ⟨("female").toList, .confirmed, none⟩,
        some (.typed ⟨some ⟨("brown").toList, .inferred, none⟩, none, none, none⟩),
        none, none, none, none, none⟩ : HumanDetailsDyn) with
        hair := some (.stray ⟨("short bob").toList, .inferred, some 4⟩) } ∧
      (updateSubjectDyn dynSubjectC10 ("hair") (("short bob").toList) .inferred
        (some 4) 9).toPromptBlock .full = .error () :=
  (spec_update_nested_bundle_key dynSubjectC10
    ⟨some ⟨("female").toList, .confirmed, none⟩,
     some (.typed ⟨some ⟨("brown").toList, .inferred, none⟩, none, none, none⟩),
     none, none, none, none, none⟩
    (("short bob").toList) .inferred (some 4) 9 rfl).1

/-! ## C8: reference assembly raises exactly on an unknown subject -/

/-- C8: with a state set, `assemble_reference_prompt` raises exactly when
the subject id matches no subject of the state, and returns a prompt string
when the subject exists. -/
theorem spec_reference_unknown_subject (a : PromptAssembler)
    (st : VideoConsistencyState) (sid : PyStr) (pose : Option PyStr)
    (background : PyStr) (h : a.state = some st) :
    (getSubjectIn st sid = none →
        assembleReferencePrompt a sid pose background =
          .error (unknownSubjectMsg sid)) ∧
      (∀ sheet, getSubjectIn st sid = some sheet →
        ∃ prompt, assembleReferencePrompt a sid pose background = .ok prompt) := by
  constructor
  · intro h0
    simp [assembleReferencePrompt, h, h0]
  · intro sheet hs
    simp only [assembleReferencePrompt, h, hs]
    exact ⟨_, rfl⟩

/-- Witness for C8: on a state with zero subjects, asking for a reference
prompt of a nonexistent id raises rather than returning a string. -/
theorem spec_reference_unknown_subject_witness :
    assembleReferencePrompt ⟨some emptyStateC8⟩ (("nonexistent-id").toList)
      none (("plain white background").toList) =
      .error (unknownSubjectMsg (("nonexistent-id").toList)) :=
  (spec_reference_unknown_subject ⟨some emptyStateC8⟩ emptyStateC8
    (("nonexistent-id").toList) none (("plain white background").toList)
    rfl).1 rfl

end MVP
